import Mathlib

set_option maxRecDepth 100000

/-!
Shallow embedding of the CarbonSync route segmentation and mode-selection
engine (`src/ai/enhanced_maritime_routes.py`).

Modelling conventions:
* Python `float` values are modelled as exact rationals (`ℚ`); every numeric
  literal in the source is a decimal literal, which `ℚ` represents exactly.
* The two transcendental computations of the source — the haversine formula
  (`_calculate_haversine_distance`, using `sin`/`cos`/`asin`) and the square
  root in `_calculate_distance` / `find_nearest_port` — cannot be represented
  exactly in ℚ.  The haversine distance is passed as an oracle function `hav`,
  and the square root of `_calculate_distance` as an oracle `sqrtQ`; every
  theorem below quantifies over these oracles, so it holds in particular for
  the actual floating-point functions.  For `find_nearest_port` the source
  compares square roots of squared planar distances; since the square root is
  strictly monotone on nonnegatives (`sqrt_lt_sqrt_iff_of_nonneg` below), the
  embedding compares the squared distances directly.
* The external collaborators (geocoding, the SeaRoute subprocess) are modelled
  as oracle parameters: `geo : String → Option Coordinate` for
  `CoordinateExtractor.get_coordinates`, and a `SeaRouteOutcome` value for the
  observable behaviour of the SeaRoute invocation inside
  `get_maritime_route` (at most one SeaRoute call happens per route).
* Python truthiness on optional strings (`if s:`) is modelled by `pyTruthy`
  (`None` and the empty string are falsy).
-/

/-- `SegmentType` enum of the source (`sea` / `land`). -/
inductive SegmentType where
  | SEA
  | LAND
deriving DecidableEq, Repr

/-- `Coordinate` dataclass: `{lon: float, lat: float}`. -/
structure Coordinate where
  lon : ℚ
  lat : ℚ
deriving DecidableEq, Repr

/-- `RouteSegment` dataclass. -/
structure RouteSegment where
  type : SegmentType
  origin : Coordinate
  destination : Coordinate
  waypoints : List Coordinate
  description : String
  distance_km : ℚ
deriving DecidableEq, Repr

/-- `EnhancedRoute` dataclass. -/
structure EnhancedRoute where
  segments : List RouteSegment
  total_distance_km : ℚ
  total_waypoints : ℕ
  route_description : String
deriving DecidableEq, Repr

/-- One record of the `PortFinder.MAJOR_PORTS` table. -/
structure PortData where
  name : String
  lon : ℚ
  lat : ℚ
  country : String
deriving DecidableEq, Repr

/-! ### Python string primitives used by the source -/

/-- Python `str.lower()` restricted to the ASCII range (all keys and patterns
the decision logic compares against are ASCII). -/
def pyLower (s : String) : String := String.mk (s.data.map Char.toLower)

/-- Python `str.replace(" ", "_")` (single-character replacement). -/
def pyReplaceSpace (s : String) : String :=
  String.mk (s.data.map fun c => if c = ' ' then '_' else c)

/-- Does the second list start with the first (auxiliary for the substring test)? -/
def charsStartWith : List Char → List Char → Bool
  | [], _ => true
  | _ :: _, [] => false
  | a :: as, b :: bs => a == b && charsStartWith as bs

/-- Python `needle in haystack` substring test, on the char lists. -/
def charsContain (needle : List Char) : List Char → Bool
  | [] => needle.isEmpty
  | c :: rest => charsStartWith needle (c :: rest) || charsContain needle rest

/-- Python `needle in haystack` on strings. -/
def strContains (haystack needle : String) : Bool :=
  charsContain needle.data haystack.data

/-- Python truthiness of an optional string: `None` and `""` are falsy. -/
def pyTruthy : Option String → Bool
  | none => false
  | some s => !(s == "")

/-! ### Kernel-evaluable rational arithmetic

The library's `Rat.add`, `Rat.sub` and `Rat.mul` are `@[irreducible]`, so
terms built from them cannot be evaluated by `decide`/`rfl`.  The embedding
therefore uses the following wrappers, which compute the same values through
`mkRat`; `ratAdd_eq`, `ratSub_eq` and `ratMul_eq` below prove them equal to
the standard `ℚ` operations, and every theorem is stated with the standard
operations wherever arithmetic reasoning is involved. -/

/-- Evaluable `ℚ` addition, equal to `a + b` (`ratAdd_eq`). -/
def ratAdd (a b : ℚ) : ℚ := mkRat (a.num * b.den + b.num * a.den) (a.den * b.den)

/-- Evaluable `ℚ` subtraction, equal to `a - b` (`ratSub_eq`). -/
def ratSub (a b : ℚ) : ℚ := mkRat (a.num * b.den - b.num * a.den) (a.den * b.den)

/-- Evaluable `ℚ` multiplication, equal to `a * b` (`ratMul_eq`). -/
def ratMul (a b : ℚ) : ℚ := mkRat (a.num * b.num) (a.den * b.den)

/-- Python `abs` on a rational. -/
def pyAbs (q : ℚ) : ℚ := if q < 0 then -q else q

/-! ### Longitude Normalizer (`normalize_longitude_crossing`) -/

/-- The source's `while lon > 180: lon -= 360` loop, with an explicit
iteration bound so the definition is structurally recursive and evaluable.
`wrap_down_fuel` below supplies a bound large enough for the loop to reach
its fixpoint, proved in `wrap_down_le` / `wrap_down_exit`. -/
def wrap_down_steps : ℕ → ℚ → ℚ
  | 0, lon => lon
  | fuel + 1, lon => if lon > 180 then wrap_down_steps fuel (ratSub lon 360) else lon

/-- Iteration bound for the `lon > 180` loop: each pass subtracts `360`. -/
def wrap_down_fuel (lon : ℚ) : ℕ := (⌈lon⌉ - 180).toNat

/-- The source's `while lon < -180: lon += 360` loop, with an explicit
iteration bound. -/
def wrap_up_steps : ℕ → ℚ → ℚ
  | 0, lon => lon
  | fuel + 1, lon => if lon < -180 then wrap_up_steps fuel (ratAdd lon 360) else lon

/-- Iteration bound for the `lon < -180` loop. -/
def wrap_up_fuel (lon : ℚ) : ℕ := (-180 - ⌊lon⌋).toNat

/-- Both wrap loops of `normalize_longitude_crossing`, run in source order. -/
def wrap_lon (lon : ℚ) : ℚ :=
  let d := wrap_down_steps (wrap_down_fuel lon) lon
  wrap_up_steps (wrap_up_fuel d) d

/-- `normalize_longitude_crossing`: inputs of fewer than two points are
returned unchanged; otherwise each longitude is wrapped into `[-180, 180]`
by the two `while` loops, latitudes untouched. -/
def normalize_longitude_crossing (coordinates : List (ℚ × ℚ)) : List (ℚ × ℚ) :=
  if coordinates.length < 2 then coordinates
  else coordinates.map fun coord => (wrap_lon coord.1, coord.2)

/-! ### Maritime path provider (`get_maritime_route`) -/

/-- Observable behaviour of one SeaRoute invocation inside
`get_maritime_route`: every way the source can fail to extract a coordinate
list, plus the two geometry shapes it understands. -/
inductive SeaRouteOutcome where
  /-- `searoute.jar` is absent: the pre-subprocess fallback fires. -/
  | jarMissing
  /-- `subprocess.TimeoutExpired` was raised. -/
  | timedOut
  /-- any other exception while running SeaRoute. -/
  | runError
  /-- nonzero exit code, or the output file does not exist. -/
  | badExit
  /-- output parsed but `features` absent or empty. -/
  | noFeatures
  /-- a geometry type other than `LineString`/`MultiLineString`
  (`coordinates` stays `None`). -/
  | unknownGeometry
  /-- a `LineString` geometry with the given coordinates. -/
  | lineCoords (coords : List (ℚ × ℚ))
  /-- a `MultiLineString` geometry; the source flattens the segments. -/
  | multiLineCoords (segs : List (List (ℚ × ℚ)))
deriving DecidableEq, Repr

/-- The `coordinates` value `get_maritime_route` extracts from the SeaRoute
output: `none` on every failure path, the (possibly flattened) coordinate
list otherwise. -/
def providerCoords : SeaRouteOutcome → Option (List (ℚ × ℚ))
  | .lineCoords coords => some coords
  | .multiLineCoords segs => some segs.flatten
  | _ => none

/-- `get_maritime_route`: returns the normalized extracted coordinates when
SeaRoute produced a nonempty list (`if coordinates:`), and the straight-line
fallback `[[from_lon, from_lat], [to_lon, to_lat]]` in every other case
(jar missing, timeout, error, bad exit, no features, unknown geometry,
empty list).  The `resolution` argument only parameterizes the subprocess
call. -/
def get_maritime_route (from_lon from_lat to_lon to_lat : ℚ)
    (_resolution : ℤ) (outcome : SeaRouteOutcome) : List (ℚ × ℚ) :=
  match providerCoords outcome with
  | some coordinates =>
      if !coordinates.isEmpty then normalize_longitude_crossing coordinates
      else [(from_lon, from_lat), (to_lon, to_lat)]
  | none => [(from_lon, from_lat), (to_lon, to_lat)]

/-! ### Port Registry (`PortFinder`)

`PortFinder.MAJOR_PORTS` transcribed entry by entry from the source dict.
The source text contains three duplicated keys (`vladivostok`, `ansongo`,
`barrow`); per Python dict semantics each key keeps the position of its first
occurrence and the value of its last assignment (for `barrow` that value is
`Utqiagvik (Barrow)`, USA), which is what this list records. -/

/-- Entries 1-40 of `PortFinder.MAJOR_PORTS` (split for elaboration speed; decimal literals rendered with `mkRat`, e.g. the source's `121.8` as `mkRat 1218 10`). -/
def MAJOR_PORTS_0 : List (String × PortData) := [
  ("shanghai", ⟨"Shanghai", mkRat 1218 10, mkRat 312 10, "China"⟩),
  ("rotterdam", ⟨"Rotterdam", mkRat 45 10, mkRat 519 10, "Netherlands"⟩),
  ("singapore", ⟨"Singapore", mkRat 1038 10, mkRat 13 10, "Singapore"⟩),
  ("los_angeles", ⟨"Los Angeles", mkRat (-1182) 10, mkRat 341 10, "USA"⟩),
  ("hamburg", ⟨"Hamburg", 10, mkRat 536 10, "Germany"⟩),
  ("buenaventura", ⟨"Buenaventura", -77, mkRat 39 10, "Colombia"⟩),
  ("callao", ⟨"Callao", mkRat (-771) 10, mkRat (-121) 10, "Peru"⟩),
  ("antwerp", ⟨"Antwerp", mkRat 44 10, mkRat 512 10, "Belgium"⟩),
  ("hong_kong", ⟨"Hong Kong", mkRat 1142 10, mkRat 223 10, "Hong Kong"⟩),
  ("dubai", ⟨"Dubai", mkRat 553 10, mkRat 253 10, "UAE"⟩),
  ("new_york", ⟨"New York", -74, mkRat 407 10, "USA"⟩),
  ("yokohama", ⟨"Yokohama", mkRat 1396 10, mkRat 354 10, "Japan"⟩),
  ("cape_town", ⟨"Cape Town", mkRat 184 10, mkRat (-339) 10, "South Africa"⟩),
  ("durban", ⟨"Durban", 31, mkRat (-299) 10, "South Africa"⟩),
  ("lagos", ⟨"Lagos", mkRat 34 10, mkRat 65 10, "Nigeria"⟩),
  ("alexandria", ⟨"Alexandria", mkRat 299 10, mkRat 312 10, "Egypt"⟩),
  ("casablanca", ⟨"Casablanca", mkRat (-76) 10, mkRat 336 10, "Morocco"⟩),
  ("dakar", ⟨"Dakar", mkRat (-174) 10, mkRat 147 10, "Senegal"⟩),
  ("mumbai", ⟨"Mumbai", mkRat 728 10, mkRat 191 10, "India"⟩),
  ("chennai", ⟨"Chennai", mkRat 803 10, mkRat 131 10, "India"⟩),
  ("sydney", ⟨"Sydney", mkRat 1512 10, mkRat (-339) 10, "Australia"⟩),
  ("vancouver", ⟨"Vancouver", mkRat (-1231) 10, mkRat 493 10, "Canada"⟩),
  ("santos", ⟨"Santos", mkRat (-463) 10, mkRat (-239) 10, "Brazil"⟩),
  ("le_havre", ⟨"Le Havre", mkRat 1 10, mkRat 495 10, "France"⟩),
  ("piraeus", ⟨"Piraeus", mkRat 236 10, mkRat 379 10, "Greece"⟩),
  ("genova", ⟨"Genova", mkRat 89 10, mkRat 444 10, "Italy"⟩),
  ("valencia", ⟨"Valencia", mkRat (-4) 10, mkRat 395 10, "Spain"⟩),
  ("felixstowe", ⟨"Felixstowe", mkRat 13 10, mkRat 519 10, "UK"⟩),
  ("bremerhaven", ⟨"Bremerhaven", mkRat 86 10, mkRat 535 10, "Germany"⟩),
  ("busan", ⟨"Busan", 129, mkRat 351 10, "South Korea"⟩),
  ("tokyo", ⟨"Tokyo", mkRat 1397 10, mkRat 357 10, "Japan"⟩),
  ("kobe", ⟨"Kobe", mkRat 1352 10, mkRat 347 10, "Japan"⟩),
  ("port_klang", ⟨"Port Klang", mkRat 1014 10, 3, "Malaysia"⟩),
  ("tanjung_pelepas", ⟨"Tanjung Pelepas", mkRat 1035 10, mkRat 14 10, "Malaysia"⟩),
  ("jakarta", ⟨"Jakarta", mkRat 1068 10, mkRat (-61) 10, "Indonesia"⟩),
  ("colombo", ⟨"Colombo", mkRat 798 10, mkRat 69 10, "Sri Lanka"⟩),
  ("karachi", ⟨"Karachi", 67, mkRat 249 10, "Pakistan"⟩),
  ("haifa", ⟨"Haifa", mkRat 349 10, mkRat 328 10, "Israel"⟩),
  ("beirut", ⟨"Beirut", mkRat 355 10, mkRat 338 10, "Lebanon"⟩),
  ("long_beach", ⟨"Long Beach", mkRat (-1182) 10, mkRat 338 10, "USA"⟩)]

/-- Entries 41-80 of `PortFinder.MAJOR_PORTS` (split for elaboration speed; decimal literals rendered with `mkRat`, e.g. the source's `121.8` as `mkRat 1218 10`). -/
def MAJOR_PORTS_1 : List (String × PortData) := [
  ("seattle", ⟨"Seattle", mkRat (-1223) 10, mkRat 476 10, "USA"⟩),
  ("new_orleans", ⟨"New Orleans", mkRat (-901) 10, mkRat 299 10, "USA"⟩),
  ("charleston", ⟨"Charleston", mkRat (-799) 10, mkRat 328 10, "USA"⟩),
  ("savannah", ⟨"Savannah", mkRat (-811) 10, mkRat 321 10, "USA"⟩),
  ("miami", ⟨"Miami", mkRat (-802) 10, mkRat 258 10, "USA"⟩),
  ("montreal", ⟨"Montreal", mkRat (-736) 10, mkRat 455 10, "Canada"⟩),
  ("valparaiso", ⟨"Valparaiso", mkRat (-716) 10, -33, "Chile"⟩),
  ("buenos_aires", ⟨"Buenos Aires", mkRat (-587) 10, mkRat (-346) 10, "Argentina"⟩),
  ("rio_de_janeiro", ⟨"Rio de Janeiro", mkRat (-432) 10, mkRat (-229) 10, "Brazil"⟩),
  ("guayaquil", ⟨"Guayaquil", mkRat (-799) 10, mkRat (-22) 10, "Ecuador"⟩),
  ("cartagena", ⟨"Cartagena", mkRat (-755) 10, mkRat 104 10, "Colombia"⟩),
  ("veracruz", ⟨"Veracruz", mkRat (-961) 10, mkRat 192 10, "Mexico"⟩),
  ("manzanillo", ⟨"Manzanillo", mkRat (-1043) 10, 19, "Mexico"⟩),
  ("dar_es_salaam", ⟨"Dar es Salaam", mkRat 393 10, mkRat (-68) 10, "Tanzania"⟩),
  ("mombasa", ⟨"Mombasa", mkRat 397 10, -4, "Kenya"⟩),
  ("abidjan", ⟨"Abidjan", -4, mkRat 53 10, "Ivory Coast"⟩),
  ("tema", ⟨"Tema", 0, mkRat 56 10, "Ghana"⟩),
  ("lome", ⟨"Lome", mkRat 12 10, mkRat 61 10, "Togo"⟩),
  ("algiers", ⟨"Algiers", 3, mkRat 368 10, "Algeria"⟩),
  ("tunis", ⟨"Tunis", mkRat 102 10, mkRat 368 10, "Tunisia"⟩),
  ("melbourne", ⟨"Melbourne", mkRat 1449 10, mkRat (-378) 10, "Australia"⟩),
  ("brisbane", ⟨"Brisbane", 153, mkRat (-275) 10, "Australia"⟩),
  ("adelaide", ⟨"Adelaide", mkRat 1386 10, mkRat (-349) 10, "Australia"⟩),
  ("auckland", ⟨"Auckland", mkRat 1748 10, mkRat (-368) 10, "New Zealand"⟩),
  ("wellington", ⟨"Wellington", mkRat 1748 10, mkRat (-413) 10, "New Zealand"⟩),
  ("jeddah", ⟨"Jeddah", mkRat 392 10, mkRat 215 10, "Saudi Arabia"⟩),
  ("dammam", ⟨"Dammam", mkRat 501 10, mkRat 264 10, "Saudi Arabia"⟩),
  ("doha", ⟨"Doha", mkRat 515 10, mkRat 253 10, "Qatar"⟩),
  ("kuwait_city", ⟨"Kuwait City", mkRat 479 10, mkRat 294 10, "Kuwait"⟩),
  ("bandar_abbas", ⟨"Bandar Abbas", mkRat 563 10, mkRat 272 10, "Iran"⟩),
  ("muscat", ⟨"Muscat", mkRat 584 10, mkRat 236 10, "Oman"⟩),
  ("helsinki", ⟨"Helsinki", mkRat 249 10, mkRat 602 10, "Finland"⟩),
  ("stockholm", ⟨"Stockholm", mkRat 181 10, mkRat 593 10, "Sweden"⟩),
  ("copenhagen", ⟨"Copenhagen", mkRat 126 10, mkRat 557 10, "Denmark"⟩),
  ("oslo", ⟨"Oslo", mkRat 107 10, mkRat 599 10, "Norway"⟩),
  ("riga", ⟨"Riga", mkRat 241 10, mkRat 569 10, "Latvia"⟩),
  ("tallinn", ⟨"Tallinn", mkRat 247 10, mkRat 594 10, "Estonia"⟩),
  ("st_petersburg", ⟨"St. Petersburg", mkRat 303 10, mkRat 599 10, "Russia"⟩),
  ("san_juan", ⟨"San Juan", mkRat (-661) 10, mkRat 185 10, "Puerto Rico"⟩),
  ("kingston", ⟨"Kingston", mkRat (-768) 10, 18, "Jamaica"⟩)]

/-- Entries 81-120 of `PortFinder.MAJOR_PORTS` (split for elaboration speed; decimal literals rendered with `mkRat`, e.g. the source's `121.8` as `mkRat 1218 10`). -/
def MAJOR_PORTS_2 : List (String × PortData) := [
  ("port_of_spain", ⟨"Port of Spain", mkRat (-615) 10, mkRat 107 10, "Trinidad and Tobago"⟩),
  ("panama_city", ⟨"Panama City", mkRat (-795) 10, 9, "Panama"⟩),
  ("colon", ⟨"Colon", mkRat (-799) 10, mkRat 94 10, "Panama"⟩),
  ("puerto_limon", ⟨"Puerto Limon", -83, 10, "Costa Rica"⟩),
  ("tianjin", ⟨"Tianjin", mkRat 1172 10, mkRat 391 10, "China"⟩),
  ("qingdao", ⟨"Qingdao", mkRat 1204 10, mkRat 361 10, "China"⟩),
  ("guangzhou", ⟨"Guangzhou", mkRat 1133 10, mkRat 231 10, "China"⟩),
  ("shenzhen", ⟨"Shenzhen", mkRat 1141 10, mkRat 225 10, "China"⟩),
  ("ningbo", ⟨"Ningbo", mkRat 1215 10, mkRat 299 10, "China"⟩),
  ("dalian", ⟨"Dalian", mkRat 1216 10, mkRat 389 10, "China"⟩),
  ("xiamen", ⟨"Xiamen", mkRat 1181 10, mkRat 245 10, "China"⟩),
  ("visakhapatnam", ⟨"Visakhapatnam", mkRat 833 10, mkRat 177 10, "India"⟩),
  ("kandla", ⟨"Kandla", mkRat 702 10, 23, "India"⟩),
  ("cochin", ⟨"Cochin", mkRat 762 10, 10, "India"⟩),
  ("tuticorin", ⟨"Tuticorin", mkRat 781 10, mkRat 88 10, "India"⟩),
  ("paradip", ⟨"Paradip", mkRat 866 10, mkRat 203 10, "India"⟩),
  ("chittagong", ⟨"Chittagong", mkRat 918 10, mkRat 223 10, "Bangladesh"⟩),
  ("port_sudan", ⟨"Port Sudan", mkRat 372 10, mkRat 196 10, "Sudan"⟩),
  ("djibouti", ⟨"Djibouti", mkRat 431 10, mkRat 116 10, "Djibouti"⟩),
  ("aden", ⟨"Aden", 45, mkRat 128 10, "Yemen"⟩),
  ("sohar", ⟨"Sohar", mkRat 567 10, mkRat 244 10, "Oman"⟩),
  ("ho_chi_minh", ⟨"Ho Chi Minh City", mkRat 1067 10, mkRat 108 10, "Vietnam"⟩),
  ("haiphong", ⟨"Haiphong", mkRat 1067 10, mkRat 209 10, "Vietnam"⟩),
  ("manila", ⟨"Manila", 121, mkRat 146 10, "Philippines"⟩),
  ("cebu", ⟨"Cebu", mkRat 1239 10, mkRat 103 10, "Philippines"⟩),
  ("bangkok", ⟨"Bangkok", mkRat 1005 10, mkRat 138 10, "Thailand"⟩),
  ("laem_chabang", ⟨"Laem Chabang", mkRat 1009 10, mkRat 131 10, "Thailand"⟩),
  ("yangon", ⟨"Yangon", mkRat 962 10, mkRat 168 10, "Myanmar"⟩),
  ("sihanoukville", ⟨"Sihanoukville", mkRat 1035 10, mkRat 106 10, "Cambodia"⟩),
  ("vladivostok", ⟨"Vladivostok", mkRat 1319 10, mkRat 431 10, "Russia"⟩),
  ("novorossiysk", ⟨"Novorossiysk", mkRat 378 10, mkRat 447 10, "Russia"⟩),
  ("kaliningrad", ⟨"Kaliningrad", mkRat 205 10, mkRat 547 10, "Russia"⟩),
  ("arkhangelsk", ⟨"Arkhangelsk", mkRat 405 10, mkRat 645 10, "Russia"⟩),
  ("murmansk", ⟨"Murmansk", mkRat 331 10, mkRat 689 10, "Russia"⟩),
  ("barcelona", ⟨"Barcelona", mkRat 22 10, mkRat 414 10, "Spain"⟩),
  ("marseille", ⟨"Marseille", mkRat 54 10, mkRat 433 10, "France"⟩),
  ("naples", ⟨"Naples", mkRat 143 10, mkRat 408 10, "Italy"⟩),
  ("venice", ⟨"Venice", mkRat 123 10, mkRat 454 10, "Italy"⟩),
  ("istanbul", ⟨"Istanbul", 29, 41, "Turkey"⟩),
  ("izmir", ⟨"Izmir", mkRat 271 10, mkRat 384 10, "Turkey"⟩)]

/-- Entries 121-160 of `PortFinder.MAJOR_PORTS` (split for elaboration speed; decimal literals rendered with `mkRat`, e.g. the source's `121.8` as `mkRat 1218 10`). -/
def MAJOR_PORTS_3 : List (String × PortData) := [
  ("mersin", ⟨"Mersin", mkRat 346 10, mkRat 368 10, "Turkey"⟩),
  ("limassol", ⟨"Limassol", 33, mkRat 347 10, "Cyprus"⟩),
  ("malta", ⟨"Malta", mkRat 145 10, mkRat 359 10, "Malta"⟩),
  ("palermo", ⟨"Palermo", mkRat 134 10, mkRat 381 10, "Italy"⟩),
  ("rabat", ⟨"Rabat", mkRat (-68) 10, 34, "Morocco"⟩),
  ("tangier", ⟨"Tangier", mkRat (-58) 10, mkRat 358 10, "Morocco"⟩),
  ("oran", ⟨"Oran", mkRat (-6) 10, mkRat 357 10, "Algeria"⟩),
  ("sfax", ⟨"Sfax", mkRat 108 10, mkRat 347 10, "Tunisia"⟩),
  ("benghazi", ⟨"Benghazi", mkRat 201 10, mkRat 321 10, "Libya"⟩),
  ("tripoli", ⟨"Tripoli", mkRat 132 10, mkRat 329 10, "Libya"⟩),
  ("freetown", ⟨"Freetown", mkRat (-132) 10, mkRat 85 10, "Sierra Leone"⟩),
  ("conakry", ⟨"Conakry", mkRat (-137) 10, mkRat 95 10, "Guinea"⟩),
  ("bissau", ⟨"Bissau", mkRat (-156) 10, mkRat 119 10, "Guinea-Bissau"⟩),
  ("banjul", ⟨"Banjul", mkRat (-166) 10, mkRat 135 10, "Gambia"⟩),
  ("nouakchott", ⟨"Nouakchott", mkRat (-159) 10, mkRat 181 10, "Mauritania"⟩),
  ("cotonou", ⟨"Cotonou", mkRat 24 10, mkRat 64 10, "Benin"⟩),
  ("porto_novo", ⟨"Porto Novo", mkRat 26 10, mkRat 65 10, "Benin"⟩),
  ("libreville", ⟨"Libreville", mkRat 95 10, mkRat 4 10, "Gabon"⟩),
  ("douala", ⟨"Douala", mkRat 97 10, 4, "Cameroon"⟩),
  ("malabo", ⟨"Malabo", mkRat 88 10, mkRat 38 10, "Equatorial Guinea"⟩),
  ("port_said", ⟨"Port Said", mkRat 323 10, mkRat 313 10, "Egypt"⟩),
  ("suez", ⟨"Suez", mkRat 325 10, mkRat 299 10, "Egypt"⟩),
  ("massawa", ⟨"Massawa", mkRat 395 10, mkRat 156 10, "Eritrea"⟩),
  ("berbera", ⟨"Berbera", 45, mkRat 104 10, "Somalia"⟩),
  ("mogadishu", ⟨"Mogadishu", mkRat 453 10, 2, "Somalia"⟩),
  ("kilifi", ⟨"Kilifi", mkRat 398 10, mkRat (-36) 10, "Kenya"⟩),
  ("tanga", ⟨"Tanga", mkRat 391 10, mkRat (-51) 10, "Tanzania"⟩),
  ("zanzibar", ⟨"Zanzibar", mkRat 392 10, mkRat (-62) 10, "Tanzania"⟩),
  ("nacala", ⟨"Nacala", mkRat 407 10, mkRat (-145) 10, "Mozambique"⟩),
  ("maputo", ⟨"Maputo", mkRat 326 10, mkRat (-259) 10, "Mozambique"⟩),
  ("beira", ⟨"Beira", mkRat 348 10, mkRat (-198) 10, "Mozambique"⟩),
  ("antsiranana", ⟨"Antsiranana", mkRat 493 10, mkRat (-123) 10, "Madagascar"⟩),
  ("toamasina", ⟨"Toamasina", mkRat 494 10, mkRat (-182) 10, "Madagascar"⟩),
  ("port_louis", ⟨"Port Louis", mkRat 575 10, mkRat (-202) 10, "Mauritius"⟩),
  ("victoria", ⟨"Victoria", mkRat 555 10, mkRat (-46) 10, "Seychelles"⟩),
  ("luanda", ⟨"Luanda", mkRat 132 10, mkRat (-88) 10, "Angola"⟩),
  ("lobito", ⟨"Lobito", mkRat 135 10, mkRat (-124) 10, "Angola"⟩),
  ("walvis_bay", ⟨"Walvis Bay", mkRat 145 10, mkRat (-229) 10, "Namibia"⟩),
  ("port_elizabeth", ⟨"Port Elizabeth", mkRat 256 10, mkRat (-339) 10, "South Africa"⟩),
  ("east_london", ⟨"East London", mkRat 279 10, -33, "South Africa"⟩)]

/-- Entries 161-200 of `PortFinder.MAJOR_PORTS` (split for elaboration speed; decimal literals rendered with `mkRat`, e.g. the source's `121.8` as `mkRat 1218 10`). -/
def MAJOR_PORTS_4 : List (String × PortData) := [
  ("richards_bay", ⟨"Richards Bay", 32, mkRat (-288) 10, "South Africa"⟩),
  ("mossel_bay", ⟨"Mossel Bay", mkRat 221 10, mkRat (-342) 10, "South Africa"⟩),
  ("suva", ⟨"Suva", mkRat 1784 10, mkRat (-181) 10, "Fiji"⟩),
  ("lautoka", ⟨"Lautoka", mkRat 1775 10, mkRat (-176) 10, "Fiji"⟩),
  ("noumea", ⟨"Noumea", mkRat 1664 10, mkRat (-223) 10, "New Caledonia"⟩),
  ("papeete", ⟨"Papeete", mkRat (-1496) 10, mkRat (-175) 10, "French Polynesia"⟩),
  ("port_vila", ⟨"Port Vila", mkRat 1683 10, mkRat (-177) 10, "Vanuatu"⟩),
  ("nuku_alofa", ⟨"Nuku\x27alofa", mkRat (-1752) 10, mkRat (-211) 10, "Tonga"⟩),
  ("apia", ⟨"Apia", mkRat (-1718) 10, mkRat (-138) 10, "Samoa"⟩),
  ("port_moresby", ⟨"Port Moresby", mkRat 1472 10, mkRat (-94) 10, "Papua New Guinea"⟩),
  ("honiara", ⟨"Honiara", mkRat 1599 10, mkRat (-94) 10, "Solomon Islands"⟩),
  ("halifax", ⟨"Halifax", mkRat (-636) 10, mkRat 446 10, "Canada"⟩),
  ("saint_john", ⟨"Saint John", mkRat (-661) 10, mkRat 453 10, "Canada"⟩),
  ("thunder_bay", ⟨"Thunder Bay", mkRat (-892) 10, mkRat 484 10, "Canada"⟩),
  ("prince_rupert", ⟨"Prince Rupert", mkRat (-1303) 10, mkRat 543 10, "Canada"⟩),
  ("churchill", ⟨"Churchill", mkRat (-942) 10, mkRat 588 10, "Canada"⟩),
  ("acapulco", ⟨"Acapulco", mkRat (-999) 10, mkRat 169 10, "Mexico"⟩),
  ("puerto_vallarta", ⟨"Puerto Vallarta", mkRat (-1052) 10, mkRat 206 10, "Mexico"⟩),
  ("salina_cruz", ⟨"Salina Cruz", mkRat (-952) 10, mkRat 162 10, "Mexico"⟩),
  ("progreso", ⟨"Progreso", mkRat (-897) 10, mkRat 213 10, "Mexico"⟩),
  ("puerto_cortes", ⟨"Puerto Cortes", mkRat (-879) 10, mkRat 158 10, "Honduras"⟩),
  ("acajutla", ⟨"Acajutla", mkRat (-898) 10, mkRat 136 10, "El Salvador"⟩),
  ("puerto_quetzal", ⟨"Puerto Quetzal", mkRat (-908) 10, mkRat 139 10, "Guatemala"⟩),
  ("puerto_barrios", ⟨"Puerto Barrios", mkRat (-886) 10, mkRat 157 10, "Guatemala"⟩),
  ("bluefields", ⟨"Bluefields", mkRat (-838) 10, 12, "Nicaragua"⟩),
  ("la_ceiba", ⟨"La Ceiba", mkRat (-868) 10, mkRat 158 10, "Honduras"⟩),
  ("bridgetown", ⟨"Bridgetown", mkRat (-596) 10, mkRat 131 10, "Barbados"⟩),
  ("st_johns", ⟨"St. John\x27s", mkRat (-619) 10, mkRat 171 10, "Antigua and Barbuda"⟩),
  ("castries", ⟨"Castries", -61, 14, "Saint Lucia"⟩),
  ("roseau", ⟨"Roseau", mkRat (-614) 10, mkRat 153 10, "Dominica"⟩),
  ("st_georges", ⟨"St. George\x27s", mkRat (-618) 10, mkRat 121 10, "Grenada"⟩),
  ("paramaribo", ⟨"Paramaribo", mkRat (-552) 10, mkRat 59 10, "Suriname"⟩),
  ("cayenne", ⟨"Cayenne", mkRat (-523) 10, mkRat 49 10, "French Guiana"⟩),
  ("georgetown_guyana", ⟨"Georgetown", mkRat (-582) 10, mkRat 68 10, "Guyana"⟩),
  ("fortaleza", ⟨"Fortaleza", mkRat (-385) 10, mkRat (-37) 10, "Brazil"⟩),
  ("recife", ⟨"Recife", mkRat (-349) 10, mkRat (-81) 10, "Brazil"⟩),
  ("salvador", ⟨"Salvador", mkRat (-385) 10, mkRat (-129) 10, "Brazil"⟩),
  ("vitoria", ⟨"Vitoria", mkRat (-403) 10, mkRat (-203) 10, "Brazil"⟩),
  ("paranagua", ⟨"Paranagua", mkRat (-485) 10, mkRat (-255) 10, "Brazil"⟩),
  ("itajai", ⟨"Itajai", mkRat (-487) 10, mkRat (-269) 10, "Brazil"⟩)]

/-- Entries 201-240 of `PortFinder.MAJOR_PORTS` (split for elaboration speed; decimal literals rendered with `mkRat`, e.g. the source's `121.8` as `mkRat 1218 10`). -/
def MAJOR_PORTS_5 : List (String × PortData) := [
  ("rio_grande", ⟨"Rio Grande", mkRat (-521) 10, -32, "Brazil"⟩),
  ("montevideo", ⟨"Montevideo", mkRat (-562) 10, mkRat (-349) 10, "Uruguay"⟩),
  ("la_plata", ⟨"La Plata", mkRat (-579) 10, mkRat (-349) 10, "Argentina"⟩),
  ("bahia_blanca", ⟨"Bahia Blanca", mkRat (-623) 10, mkRat (-387) 10, "Argentina"⟩),
  ("puerto_madryn", ⟨"Puerto Madryn", -65, mkRat (-428) 10, "Argentina"⟩),
  ("ushuaia", ⟨"Ushuaia", mkRat (-683) 10, mkRat (-548) 10, "Argentina"⟩),
  ("antofagasta", ⟨"Antofagasta", mkRat (-704) 10, mkRat (-236) 10, "Chile"⟩),
  ("iquique", ⟨"Iquique", mkRat (-701) 10, mkRat (-202) 10, "Chile"⟩),
  ("arica", ⟨"Arica", mkRat (-703) 10, mkRat (-185) 10, "Chile"⟩),
  ("talcahuano", ⟨"Talcahuano", mkRat (-731) 10, mkRat (-367) 10, "Chile"⟩),
  ("puerto_montt", ⟨"Puerto Montt", mkRat (-729) 10, mkRat (-415) 10, "Chile"⟩),
  ("punta_arenas", ⟨"Punta Arenas", mkRat (-709) 10, mkRat (-531) 10, "Chile"⟩),
  ("esmeraldas", ⟨"Esmeraldas", mkRat (-797) 10, 1, "Ecuador"⟩),
  ("manta", ⟨"Manta", mkRat (-807) 10, mkRat (-9) 10, "Ecuador"⟩),
  ("salaverry", ⟨"Salaverry", mkRat (-789) 10, mkRat (-82) 10, "Peru"⟩),
  ("paita", ⟨"Paita", mkRat (-811) 10, mkRat (-51) 10, "Peru"⟩),
  ("ilo", ⟨"Ilo", mkRat (-713) 10, mkRat (-176) 10, "Peru"⟩),
  ("santa_marta", ⟨"Santa Marta", mkRat (-742) 10, mkRat 112 10, "Colombia"⟩),
  ("barranquilla", ⟨"Barranquilla", mkRat (-748) 10, 11, "Colombia"⟩),
  ("puerto_cabello", ⟨"Puerto Cabello", -68, mkRat 105 10, "Venezuela"⟩),
  ("maracaibo", ⟨"Maracaibo", mkRat (-716) 10, mkRat 107 10, "Venezuela"⟩),
  ("la_guaira", ⟨"La Guaira", mkRat (-669) 10, mkRat 106 10, "Venezuela"⟩),
  ("toronto", ⟨"Toronto", mkRat (-794) 10, mkRat 437 10, "Canada"⟩),
  ("quebec_city", ⟨"Quebec City", mkRat (-712) 10, mkRat 468 10, "Canada"⟩),
  ("detroit", ⟨"Detroit", -83, mkRat 423 10, "USA"⟩),
  ("cleveland", ⟨"Cleveland", mkRat (-817) 10, mkRat 415 10, "USA"⟩),
  ("buffalo", ⟨"Buffalo", mkRat (-789) 10, mkRat 429 10, "USA"⟩),
  ("milwaukee", ⟨"Milwaukee", mkRat (-879) 10, 43, "USA"⟩),
  ("chicago", ⟨"Chicago", mkRat (-876) 10, mkRat 419 10, "USA"⟩),
  ("duluth", ⟨"Duluth", mkRat (-921) 10, mkRat 468 10, "USA"⟩),
  ("baton_rouge", ⟨"Baton Rouge", mkRat (-912) 10, mkRat 304 10, "USA"⟩),
  ("memphis", ⟨"Memphis", -90, mkRat 351 10, "USA"⟩),
  ("st_louis", ⟨"St. Louis", mkRat (-902) 10, mkRat 386 10, "USA"⟩),
  ("pittsburgh", ⟨"Pittsburgh", -80, mkRat 404 10, "USA"⟩),
  ("cincinnati", ⟨"Cincinnati", mkRat (-845) 10, mkRat 391 10, "USA"⟩),
  ("louisville", ⟨"Louisville", mkRat (-858) 10, mkRat 383 10, "USA"⟩),
  ("huntington", ⟨"Huntington", mkRat (-824) 10, mkRat 384 10, "USA"⟩),
  ("evansville", ⟨"Evansville", mkRat (-876) 10, mkRat 379 10, "USA"⟩),
  ("paducah", ⟨"Paducah", mkRat (-886) 10, mkRat 371 10, "USA"⟩),
  ("cairo", ⟨"Cairo", mkRat (-892) 10, 37, "USA"⟩)]

/-- Entries 241-280 of `PortFinder.MAJOR_PORTS` (split for elaboration speed; decimal literals rendered with `mkRat`, e.g. the source's `121.8` as `mkRat 1218 10`). -/
def MAJOR_PORTS_6 : List (String × PortData) := [
  ("minneapolis", ⟨"Minneapolis", mkRat (-933) 10, mkRat 449 10, "USA"⟩),
  ("st_paul", ⟨"St. Paul", mkRat (-931) 10, mkRat 449 10, "USA"⟩),
  ("davenport", ⟨"Davenport", mkRat (-906) 10, mkRat 415 10, "USA"⟩),
  ("dubuque", ⟨"Dubuque", mkRat (-907) 10, mkRat 425 10, "USA"⟩),
  ("prairie_du_chien", ⟨"Prairie du Chien", mkRat (-911) 10, mkRat 431 10, "USA"⟩),
  ("la_crosse", ⟨"La Crosse", mkRat (-912) 10, mkRat 438 10, "USA"⟩),
  ("winona", ⟨"Winona", mkRat (-916) 10, 44, "USA"⟩),
  ("clinton", ⟨"Clinton", mkRat (-902) 10, mkRat 418 10, "USA"⟩),
  ("muscatine", ⟨"Muscatine", -91, mkRat 414 10, "USA"⟩),
  ("keokuk", ⟨"Keokuk", mkRat (-914) 10, mkRat 404 10, "USA"⟩),
  ("hannibal", ⟨"Hannibal", mkRat (-914) 10, mkRat 397 10, "USA"⟩),
  ("natchez", ⟨"Natchez", mkRat (-914) 10, mkRat 316 10, "USA"⟩),
  ("vicksburg", ⟨"Vicksburg", mkRat (-909) 10, mkRat 324 10, "USA"⟩),
  ("greenville", ⟨"Greenville", mkRat (-911) 10, mkRat 334 10, "USA"⟩),
  ("helena", ⟨"Helena", mkRat (-906) 10, mkRat 345 10, "USA"⟩),
  ("cape_girardeau", ⟨"Cape Girardeau", mkRat (-895) 10, mkRat 373 10, "USA"⟩),
  ("quincy", ⟨"Quincy", mkRat (-914) 10, mkRat 399 10, "USA"⟩),
  ("burlington", ⟨"Burlington", mkRat (-911) 10, mkRat 408 10, "USA"⟩),
  ("fort_madison", ⟨"Fort Madison", mkRat (-913) 10, mkRat 406 10, "USA"⟩),
  ("rock_island", ⟨"Rock Island", mkRat (-906) 10, mkRat 415 10, "USA"⟩),
  ("moline", ⟨"Moline", mkRat (-905) 10, mkRat 415 10, "USA"⟩),
  ("bremen", ⟨"Bremen", mkRat 88 10, mkRat 531 10, "Germany"⟩),
  ("cologne", ⟨"Cologne", mkRat 69 10, mkRat 509 10, "Germany"⟩),
  ("dusseldorf", ⟨"Dusseldorf", mkRat 68 10, mkRat 512 10, "Germany"⟩),
  ("duisburg", ⟨"Duisburg", mkRat 68 10, mkRat 514 10, "Germany"⟩),
  ("mainz", ⟨"Mainz", mkRat 83 10, 50, "Germany"⟩),
  ("mannheim", ⟨"Mannheim", mkRat 85 10, mkRat 495 10, "Germany"⟩),
  ("ludwigshafen", ⟨"Ludwigshafen", mkRat 84 10, mkRat 495 10, "Germany"⟩),
  ("frankfurt", ⟨"Frankfurt", mkRat 87 10, mkRat 501 10, "Germany"⟩),
  ("karlsruhe", ⟨"Karlsruhe", mkRat 84 10, 49, "Germany"⟩),
  ("strasbourg", ⟨"Strasbourg", mkRat 77 10, mkRat 486 10, "France"⟩),
  ("basel", ⟨"Basel", mkRat 76 10, mkRat 476 10, "Switzerland"⟩),
  ("mulhouse", ⟨"Mulhouse", mkRat 73 10, mkRat 477 10, "France"⟩),
  ("amsterdam", ⟨"Amsterdam", mkRat 49 10, mkRat 524 10, "Netherlands"⟩),
  ("utrecht", ⟨"Utrecht", mkRat 51 10, mkRat 521 10, "Netherlands"⟩),
  ("arnhem", ⟨"Arnhem", mkRat 59 10, 52, "Netherlands"⟩),
  ("nijmegen", ⟨"Nijmegen", mkRat 59 10, mkRat 518 10, "Netherlands"⟩),
  ("emmerich", ⟨"Emmerich", mkRat 62 10, mkRat 518 10, "Germany"⟩),
  ("wesel", ⟨"Wesel", mkRat 66 10, mkRat 517 10, "Germany"⟩),
  ("rees", ⟨"Rees", mkRat 64 10, mkRat 518 10, "Germany"⟩)]

/-- Entries 281-320 of `PortFinder.MAJOR_PORTS` (split for elaboration speed; decimal literals rendered with `mkRat`, e.g. the source's `121.8` as `mkRat 1218 10`). -/
def MAJOR_PORTS_7 : List (String × PortData) := [
  ("xanten", ⟨"Xanten", mkRat 65 10, mkRat 517 10, "Germany"⟩),
  ("kleve", ⟨"Kleve", mkRat 61 10, mkRat 518 10, "Germany"⟩),
  ("liege", ⟨"Liege", mkRat 56 10, mkRat 506 10, "Belgium"⟩),
  ("maastricht", ⟨"Maastricht", mkRat 57 10, mkRat 508 10, "Netherlands"⟩),
  ("rouen", ⟨"Rouen", mkRat 11 10, mkRat 494 10, "France"⟩),
  ("paris", ⟨"Paris", mkRat 23 10, mkRat 489 10, "France"⟩),
  ("brussels", ⟨"Brussels", mkRat 44 10, mkRat 508 10, "Belgium"⟩),
  ("ghent", ⟨"Ghent", mkRat 37 10, mkRat 511 10, "Belgium"⟩),
  ("bruges", ⟨"Bruges", mkRat 32 10, mkRat 512 10, "Belgium"⟩),
  ("ostend", ⟨"Ostend", mkRat 29 10, mkRat 512 10, "Belgium"⟩),
  ("zeebrugge", ⟨"Zeebrugge", mkRat 32 10, mkRat 513 10, "Belgium"⟩),
  ("terneuzen", ⟨"Terneuzen", mkRat 38 10, mkRat 513 10, "Netherlands"⟩),
  ("vlissingen", ⟨"Vlissingen", mkRat 36 10, mkRat 514 10, "Netherlands"⟩),
  ("nanjing", ⟨"Nanjing", mkRat 1188 10, mkRat 321 10, "China"⟩),
  ("wuhan", ⟨"Wuhan", mkRat 1143 10, mkRat 306 10, "China"⟩),
  ("chongqing", ⟨"Chongqing", mkRat 1065 10, mkRat 296 10, "China"⟩),
  ("yichang", ⟨"Yichang", mkRat 1113 10, mkRat 307 10, "China"⟩),
  ("jiujiang", ⟨"Jiujiang", mkRat 1159 10, mkRat 297 10, "China"⟩),
  ("anqing", ⟨"Anqing", 117, mkRat 305 10, "China"⟩),
  ("wuhu", ⟨"Wuhu", mkRat 1184 10, mkRat 313 10, "China"⟩),
  ("maanshan", ⟨"Maanshan", mkRat 1185 10, mkRat 317 10, "China"⟩),
  ("tongling", ⟨"Tongling", mkRat 1178 10, mkRat 309 10, "China"⟩),
  ("chizhou", ⟨"Chizhou", mkRat 1175 10, mkRat 307 10, "China"⟩),
  ("huangshi", ⟨"Huangshi", 115, mkRat 302 10, "China"⟩),
  ("ezhou", ⟨"Ezhou", mkRat 1149 10, mkRat 304 10, "China"⟩),
  ("huanggang", ⟨"Huanggang", mkRat 1149 10, mkRat 304 10, "China"⟩),
  ("jingzhou", ⟨"Jingzhou", mkRat 1122 10, mkRat 304 10, "China"⟩),
  ("yueyang", ⟨"Yueyang", mkRat 1131 10, mkRat 294 10, "China"⟩),
  ("changsha", ⟨"Changsha", mkRat 1129 10, mkRat 282 10, "China"⟩),
  ("manaus", ⟨"Manaus", -60, mkRat (-31) 10, "Brazil"⟩),
  ("santarem", ⟨"Santarem", mkRat (-547) 10, mkRat (-24) 10, "Brazil"⟩),
  ("belem", ⟨"Belem", mkRat (-485) 10, mkRat (-15) 10, "Brazil"⟩),
  ("macapa", ⟨"Macapa", mkRat (-511) 10, 0, "Brazil"⟩),
  ("porto_velho", ⟨"Porto Velho", mkRat (-639) 10, mkRat (-88) 10, "Brazil"⟩),
  ("iquitos", ⟨"Iquitos", mkRat (-732) 10, mkRat (-37) 10, "Peru"⟩),
  ("leticia", ⟨"Leticia", mkRat (-699) 10, mkRat (-42) 10, "Colombia"⟩),
  ("tabatinga", ⟨"Tabatinga", mkRat (-699) 10, mkRat (-43) 10, "Brazil"⟩),
  ("tefe", ⟨"Tefe", mkRat (-647) 10, mkRat (-34) 10, "Brazil"⟩),
  ("coari", ⟨"Coari", mkRat (-631) 10, mkRat (-41) 10, "Brazil"⟩),
  ("itacoatiara", ⟨"Itacoatiara", mkRat (-584) 10, mkRat (-31) 10, "Brazil"⟩)]

/-- Entries 321-360 of `PortFinder.MAJOR_PORTS` (split for elaboration speed; decimal literals rendered with `mkRat`, e.g. the source's `121.8` as `mkRat 1218 10`). -/
def MAJOR_PORTS_8 : List (String × PortData) := [
  ("parintins", ⟨"Parintins", mkRat (-567) 10, mkRat (-26) 10, "Brazil"⟩),
  ("obidos", ⟨"Obidos", mkRat (-555) 10, mkRat (-19) 10, "Brazil"⟩),
  ("almeirim", ⟨"Almeirim", mkRat (-526) 10, mkRat (-15) 10, "Brazil"⟩),
  ("monte_alegre", ⟨"Monte Alegre", mkRat (-541) 10, -2, "Brazil"⟩),
  ("prainha", ⟨"Prainha", mkRat (-535) 10, mkRat (-18) 10, "Brazil"⟩),
  ("gurupa", ⟨"Gurupa", mkRat (-516) 10, mkRat (-14) 10, "Brazil"⟩),
  ("breves", ⟨"Breves", mkRat (-505) 10, mkRat (-17) 10, "Brazil"⟩),
  ("abaetetuba", ⟨"Abaetetuba", mkRat (-489) 10, mkRat (-17) 10, "Brazil"⟩),
  ("barcarena", ⟨"Barcarena", mkRat (-486) 10, mkRat (-16) 10, "Brazil"⟩),
  ("tucurui", ⟨"Tucurui", mkRat (-497) 10, mkRat (-38) 10, "Brazil"⟩),
  ("altamira", ⟨"Altamira", mkRat (-522) 10, mkRat (-32) 10, "Brazil"⟩),
  ("itaituba", ⟨"Itaituba", -56, mkRat (-43) 10, "Brazil"⟩),
  ("aswan", ⟨"Aswan", mkRat 329 10, mkRat 241 10, "Egypt"⟩),
  ("luxor", ⟨"Luxor", mkRat 326 10, mkRat 257 10, "Egypt"⟩),
  ("cairo_port", ⟨"Cairo Port", mkRat 312 10, mkRat 301 10, "Egypt"⟩),
  ("khartoum", ⟨"Khartoum", mkRat 325 10, mkRat 155 10, "Sudan"⟩),
  ("juba", ⟨"Juba", mkRat 316 10, mkRat 49 10, "South Sudan"⟩),
  ("malakal", ⟨"Malakal", mkRat 317 10, mkRat 95 10, "South Sudan"⟩),
  ("renk", ⟨"Renk", mkRat 328 10, mkRat 118 10, "South Sudan"⟩),
  ("kodok", ⟨"Kodok", mkRat 321 10, mkRat 99 10, "South Sudan"⟩),
  ("bor", ⟨"Bor", mkRat 316 10, mkRat 62 10, "South Sudan"⟩),
  ("mongalla", ⟨"Mongalla", mkRat 318 10, mkRat 52 10, "South Sudan"⟩),
  ("kisangani", ⟨"Kisangani", mkRat 252 10, mkRat 5 10, "Democratic Republic of Congo"⟩),
  ("kinshasa", ⟨"Kinshasa", mkRat 153 10, mkRat (-43) 10, "Democratic Republic of Congo"⟩),
  ("brazzaville", ⟨"Brazzaville", mkRat 153 10, mkRat (-43) 10, "Republic of Congo"⟩),
  ("bangui", ⟨"Bangui", mkRat 186 10, mkRat 44 10, "Central African Republic"⟩),
  ("bamako", ⟨"Bamako", -8, mkRat 126 10, "Mali"⟩),
  ("gao", ⟨"Gao", -0, mkRat 163 10, "Mali"⟩),
  ("timbuktu", ⟨"Timbuktu", -3, mkRat 168 10, "Mali"⟩),
  ("mopti", ⟨"Mopti", mkRat (-42) 10, mkRat 145 10, "Mali"⟩),
  ("segou", ⟨"Segou", mkRat (-63) 10, mkRat 134 10, "Mali"⟩),
  ("kayes", ⟨"Kayes", mkRat (-114) 10, mkRat 144 10, "Mali"⟩),
  ("niamey", ⟨"Niamey", mkRat 21 10, mkRat 135 10, "Niger"⟩),
  ("tillaberi", ⟨"Tillaberi", mkRat 15 10, mkRat 142 10, "Niger"⟩),
  ("ayorou", ⟨"Ayorou", mkRat 9 10, mkRat 147 10, "Niger"⟩),
  ("ansongo", ⟨"Ansongo", mkRat 5 10, mkRat 157 10, "Mali"⟩),
  ("dire", ⟨"Dire", mkRat (-34) 10, mkRat 163 10, "Mali"⟩),
  ("tonka", ⟨"Tonka", mkRat (-31) 10, mkRat 161 10, "Mali"⟩),
  ("goundam", ⟨"Goundam", mkRat (-37) 10, mkRat 164 10, "Mali"⟩),
  ("rharous", ⟨"Rharous", -2, mkRat 169 10, "Mali"⟩)]

/-- Entries 361-400 of `PortFinder.MAJOR_PORTS` (split for elaboration speed; decimal literals rendered with `mkRat`, e.g. the source's `121.8` as `mkRat 1218 10`). -/
def MAJOR_PORTS_9 : List (String × PortData) := [
  ("bourem", ⟨"Bourem", mkRat (-4) 10, mkRat 169 10, "Mali"⟩),
  ("moscow", ⟨"Moscow", mkRat 376 10, mkRat 558 10, "Russia"⟩),
  ("nizhny_novgorod", ⟨"Nizhny Novgorod", 44, mkRat 563 10, "Russia"⟩),
  ("kazan", ⟨"Kazan", mkRat 491 10, mkRat 558 10, "Russia"⟩),
  ("samara", ⟨"Samara", mkRat 501 10, mkRat 532 10, "Russia"⟩),
  ("saratov", ⟨"Saratov", 46, mkRat 515 10, "Russia"⟩),
  ("volgograd", ⟨"Volgograd", mkRat 445 10, mkRat 487 10, "Russia"⟩),
  ("astrakhan", ⟨"Astrakhan", 48, mkRat 463 10, "Russia"⟩),
  ("ulyanovsk", ⟨"Ulyanovsk", mkRat 484 10, mkRat 543 10, "Russia"⟩),
  ("cheboksary", ⟨"Cheboksary", mkRat 472 10, mkRat 561 10, "Russia"⟩),
  ("yaroslavl", ⟨"Yaroslavl", mkRat 399 10, mkRat 576 10, "Russia"⟩),
  ("kostroma", ⟨"Kostroma", mkRat 409 10, mkRat 578 10, "Russia"⟩),
  ("tver", ⟨"Tver", mkRat 359 10, mkRat 569 10, "Russia"⟩),
  ("ryazan", ⟨"Ryazan", mkRat 397 10, mkRat 546 10, "Russia"⟩),
  ("rostov_on_don", ⟨"Rostov-on-Don", mkRat 397 10, mkRat 472 10, "Russia"⟩),
  ("krasnoyarsk", ⟨"Krasnoyarsk", mkRat 929 10, 56, "Russia"⟩),
  ("irkutsk", ⟨"Irkutsk", mkRat 1043 10, mkRat 523 10, "Russia"⟩),
  ("khabarovsk", ⟨"Khabarovsk", mkRat 1351 10, mkRat 485 10, "Russia"⟩),
  ("komsomolsk_on_amur", ⟨"Komsomolsk-on-Amur", 137, mkRat 506 10, "Russia"⟩),
  ("blagoveshchensk", ⟨"Blagoveshchensk", mkRat 1275 10, mkRat 503 10, "Russia"⟩),
  ("nikolayevsk_on_amur", ⟨"Nikolayevsk-on-Amur", mkRat 1407 10, mkRat 531 10, "Russia"⟩),
  ("kolkata", ⟨"Kolkata", mkRat 884 10, mkRat 226 10, "India"⟩),
  ("haldia", ⟨"Haldia", mkRat 881 10, mkRat 221 10, "India"⟩),
  ("karimganj", ⟨"Karimganj", mkRat 924 10, mkRat 249 10, "India"⟩),
  ("pandu", ⟨"Pandu", mkRat 917 10, mkRat 261 10, "India"⟩),
  ("dhubri", ⟨"Dhubri", mkRat 899 10, 26, "India"⟩),
  ("jogighopa", ⟨"Jogighopa", mkRat 906 10, mkRat 264 10, "India"⟩),
  ("guwahati", ⟨"Guwahati", mkRat 917 10, mkRat 261 10, "India"⟩),
  ("silghat", ⟨"Silghat", mkRat 929 10, mkRat 268 10, "India"⟩),
  ("neamatighat", ⟨"Neamatighat", mkRat 942 10, mkRat 272 10, "India"⟩),
  ("dibrugarh", ⟨"Dibrugarh", 95, mkRat 275 10, "India"⟩),
  ("sadiya", ⟨"Sadiya", mkRat 957 10, mkRat 278 10, "India"⟩),
  ("varanasi", ⟨"Varanasi", 83, mkRat 253 10, "India"⟩),
  ("allahabad", ⟨"Allahabad", mkRat 818 10, mkRat 254 10, "India"⟩),
  ("patna", ⟨"Patna", mkRat 851 10, mkRat 256 10, "India"⟩),
  ("bhagalpur", ⟨"Bhagalpur", 87, mkRat 252 10, "India"⟩),
  ("farakka", ⟨"Farakka", mkRat 879 10, mkRat 248 10, "India"⟩),
  ("sahibganj", ⟨"Sahibganj", mkRat 876 10, mkRat 252 10, "India"⟩),
  ("rajmahal", ⟨"Rajmahal", mkRat 878 10, 25, "India"⟩),
  ("sultanganj", ⟨"Sultanganj", mkRat 867 10, mkRat 252 10, "India"⟩)]

/-- Entries 401-440 of `PortFinder.MAJOR_PORTS` (split for elaboration speed; decimal literals rendered with `mkRat`, e.g. the source's `121.8` as `mkRat 1218 10`). -/
def MAJOR_PORTS_10 : List (String × PortData) := [
  ("munger", ⟨"Munger", mkRat 865 10, mkRat 254 10, "India"⟩),
  ("buxar", ⟨"Buxar", mkRat 839 10, mkRat 256 10, "India"⟩),
  ("ghazipur", ⟨"Ghazipur", mkRat 836 10, mkRat 256 10, "India"⟩),
  ("mirzapur", ⟨"Mirzapur", mkRat 826 10, mkRat 251 10, "India"⟩),
  ("chunar", ⟨"Chunar", mkRat 829 10, mkRat 251 10, "India"⟩),
  ("malaga", ⟨"Málaga", mkRat (-44) 10, mkRat 367 10, "Spain"⟩),
  ("cadiz", ⟨"Cádiz", mkRat (-63) 10, mkRat 365 10, "Spain"⟩),
  ("seville", ⟨"Seville", -6, mkRat 374 10, "Spain"⟩),
  ("huelva", ⟨"Huelva", mkRat (-69) 10, mkRat 373 10, "Spain"⟩),
  ("algeciras", ⟨"Algeciras", mkRat (-55) 10, mkRat 361 10, "Spain"⟩),
  ("tarragona", ⟨"Tarragona", mkRat 12 10, mkRat 411 10, "Spain"⟩),
  ("castellon", ⟨"Castellón", 0, mkRat 399 10, "Spain"⟩),
  ("alicante", ⟨"Alicante", mkRat (-5) 10, mkRat 383 10, "Spain"⟩),
  ("cartagena_spain", ⟨"Cartagena", -1, mkRat 376 10, "Spain"⟩),
  ("almeria", ⟨"Almería", mkRat (-25) 10, mkRat 368 10, "Spain"⟩),
  ("motril", ⟨"Motril", mkRat (-35) 10, mkRat 367 10, "Spain"⟩),
  ("gibraltar", ⟨"Gibraltar", mkRat (-54) 10, mkRat 361 10, "Gibraltar"⟩),
  ("ceuta", ⟨"Ceuta", mkRat (-53) 10, mkRat 359 10, "Spain"⟩),
  ("melilla", ⟨"Melilla", mkRat (-29) 10, mkRat 353 10, "Spain"⟩),
  ("la_spezia", ⟨"La Spezia", mkRat 98 10, mkRat 441 10, "Italy"⟩),
  ("livorno", ⟨"Livorno", mkRat 103 10, mkRat 435 10, "Italy"⟩),
  ("civitavecchia", ⟨"Civitavecchia", mkRat 118 10, mkRat 421 10, "Italy"⟩),
  ("salerno", ⟨"Salerno", mkRat 148 10, mkRat 407 10, "Italy"⟩),
  ("brindisi", ⟨"Brindisi", mkRat 179 10, mkRat 406 10, "Italy"⟩),
  ("bari", ⟨"Bari", mkRat 169 10, mkRat 411 10, "Italy"⟩),
  ("ancona", ⟨"Ancona", mkRat 135 10, mkRat 436 10, "Italy"⟩),
  ("ravenna", ⟨"Ravenna", mkRat 122 10, mkRat 444 10, "Italy"⟩),
  ("trieste", ⟨"Trieste", mkRat 138 10, mkRat 456 10, "Italy"⟩),
  ("catania", ⟨"Catania", mkRat 151 10, mkRat 375 10, "Italy"⟩),
  ("messina", ⟨"Messina", mkRat 156 10, mkRat 382 10, "Italy"⟩),
  ("reggio_calabria", ⟨"Reggio Calabria", mkRat 156 10, mkRat 381 10, "Italy"⟩),
  ("cagliari", ⟨"Cagliari", mkRat 91 10, mkRat 392 10, "Italy"⟩),
  ("olbia", ⟨"Olbia", mkRat 95 10, mkRat 409 10, "Italy"⟩),
  ("porto_torres", ⟨"Porto Torres", mkRat 84 10, mkRat 408 10, "Italy"⟩),
  ("nice", ⟨"Nice", mkRat 73 10, mkRat 437 10, "France"⟩),
  ("cannes", ⟨"Cannes", 7, mkRat 436 10, "France"⟩),
  ("toulon", ⟨"Toulon", mkRat 59 10, mkRat 431 10, "France"⟩),
  ("sete", ⟨"Sète", mkRat 37 10, mkRat 434 10, "France"⟩),
  ("montpellier", ⟨"Montpellier", mkRat 39 10, mkRat 436 10, "France"⟩),
  ("nantes", ⟨"Nantes", mkRat (-16) 10, mkRat 472 10, "France"⟩)]

/-- Entries 441-480 of `PortFinder.MAJOR_PORTS` (split for elaboration speed; decimal literals rendered with `mkRat`, e.g. the source's `121.8` as `mkRat 1218 10`). -/
def MAJOR_PORTS_11 : List (String × PortData) := [
  ("la_rochelle", ⟨"La Rochelle", mkRat (-12) 10, mkRat 462 10, "France"⟩),
  ("bordeaux", ⟨"Bordeaux", mkRat (-6) 10, mkRat 448 10, "France"⟩),
  ("bayonne", ⟨"Bayonne", mkRat (-15) 10, mkRat 435 10, "France"⟩),
  ("brest", ⟨"Brest", mkRat (-45) 10, mkRat 484 10, "France"⟩),
  ("saint_nazaire", ⟨"Saint-Nazaire", mkRat (-22) 10, mkRat 473 10, "France"⟩),
  ("lorient", ⟨"Lorient", mkRat (-34) 10, mkRat 477 10, "France"⟩),
  ("cherbourg", ⟨"Cherbourg", mkRat (-16) 10, mkRat 496 10, "France"⟩),
  ("calais", ⟨"Calais", mkRat 19 10, mkRat 509 10, "France"⟩),
  ("dunkirk", ⟨"Dunkirk", mkRat 24 10, 51, "France"⟩),
  ("dieppe", ⟨"Dieppe", mkRat 11 10, mkRat 499 10, "France"⟩),
  ("stavanger", ⟨"Stavanger", mkRat 57 10, mkRat 589 10, "Norway"⟩),
  ("bergen", ⟨"Bergen", mkRat 53 10, mkRat 604 10, "Norway"⟩),
  ("trondheim", ⟨"Trondheim", mkRat 104 10, mkRat 634 10, "Norway"⟩),
  ("tromso", ⟨"Tromsø", mkRat 189 10, mkRat 696 10, "Norway"⟩),
  ("hammerfest", ⟨"Hammerfest", mkRat 237 10, mkRat 707 10, "Norway"⟩),
  ("kirkenes", ⟨"Kirkenes", 30, mkRat 697 10, "Norway"⟩),
  ("alesund", ⟨"Ålesund", mkRat 62 10, mkRat 625 10, "Norway"⟩),
  ("kristiansand", ⟨"Kristiansand", 8, mkRat 581 10, "Norway"⟩),
  ("larvik", ⟨"Larvik", 10, mkRat 591 10, "Norway"⟩),
  ("moss", ⟨"Moss", mkRat 107 10, mkRat 594 10, "Norway"⟩),
  ("fredrikstad", ⟨"Fredrikstad", mkRat 109 10, mkRat 592 10, "Norway"⟩),
  ("halden", ⟨"Halden", mkRat 114 10, mkRat 591 10, "Norway"⟩),
  ("drammen", ⟨"Drammen", mkRat 102 10, mkRat 597 10, "Norway"⟩),
  ("tonsberg", ⟨"Tønsberg", mkRat 104 10, mkRat 593 10, "Norway"⟩),
  ("sandefjord", ⟨"Sandefjord", mkRat 102 10, mkRat 591 10, "Norway"⟩),
  ("porsgrunn", ⟨"Porsgrunn", mkRat 97 10, mkRat 591 10, "Norway"⟩),
  ("skien", ⟨"Skien", mkRat 96 10, mkRat 592 10, "Norway"⟩),
  ("arendal", ⟨"Arendal", mkRat 88 10, mkRat 585 10, "Norway"⟩),
  ("grimstad", ⟨"Grimstad", mkRat 86 10, mkRat 583 10, "Norway"⟩),
  ("flekkefjord", ⟨"Flekkefjord", mkRat 67 10, mkRat 583 10, "Norway"⟩),
  ("egersund", ⟨"Egersund", 6, mkRat 584 10, "Norway"⟩),
  ("haugesund", ⟨"Haugesund", mkRat 53 10, mkRat 594 10, "Norway"⟩),
  ("gothenburg", ⟨"Gothenburg", mkRat 119 10, mkRat 577 10, "Sweden"⟩),
  ("malmo", ⟨"Malmö", 13, mkRat 556 10, "Sweden"⟩),
  ("helsingborg", ⟨"Helsingborg", mkRat 127 10, 56, "Sweden"⟩),
  ("karlshamn", ⟨"Karlshamn", mkRat 149 10, mkRat 562 10, "Sweden"⟩),
  ("karlskrona", ⟨"Karlskrona", mkRat 156 10, mkRat 562 10, "Sweden"⟩),
  ("kalmar", ⟨"Kalmar", mkRat 164 10, mkRat 567 10, "Sweden"⟩),
  ("visby", ⟨"Visby", mkRat 183 10, mkRat 576 10, "Sweden"⟩),
  ("norrkoping", ⟨"Norrköping", mkRat 162 10, mkRat 586 10, "Sweden"⟩)]

/-- Entries 481-520 of `PortFinder.MAJOR_PORTS` (split for elaboration speed; decimal literals rendered with `mkRat`, e.g. the source's `121.8` as `mkRat 1218 10`). -/
def MAJOR_PORTS_12 : List (String × PortData) := [
  ("sodertalje", ⟨"Södertälje", mkRat 176 10, mkRat 592 10, "Sweden"⟩),
  ("vasteras", ⟨"Västerås", mkRat 165 10, mkRat 596 10, "Sweden"⟩),
  ("gavle", ⟨"Gävle", mkRat 171 10, mkRat 607 10, "Sweden"⟩),
  ("sundsvall", ⟨"Sundsvall", mkRat 173 10, mkRat 624 10, "Sweden"⟩),
  ("harnosand", ⟨"Härnösand", mkRat 179 10, mkRat 626 10, "Sweden"⟩),
  ("ornskoldsvik", ⟨"Örnsköldsvik", mkRat 187 10, mkRat 633 10, "Sweden"⟩),
  ("umea", ⟨"Umeå", mkRat 203 10, mkRat 638 10, "Sweden"⟩),
  ("skelleftea", ⟨"Skellefteå", 21, mkRat 648 10, "Sweden"⟩),
  ("pitea", ⟨"Piteå", mkRat 215 10, mkRat 653 10, "Sweden"⟩),
  ("lulea", ⟨"Luleå", mkRat 221 10, mkRat 656 10, "Sweden"⟩),
  ("haparanda", ⟨"Haparanda", mkRat 241 10, mkRat 658 10, "Sweden"⟩),
  ("turku", ⟨"Turku", mkRat 223 10, mkRat 604 10, "Finland"⟩),
  ("tampere", ⟨"Tampere", mkRat 238 10, mkRat 615 10, "Finland"⟩),
  ("pori", ⟨"Pori", mkRat 218 10, mkRat 615 10, "Finland"⟩),
  ("rauma", ⟨"Rauma", mkRat 215 10, mkRat 611 10, "Finland"⟩),
  ("naantali", ⟨"Naantali", 22, mkRat 605 10, "Finland"⟩),
  ("hanko", ⟨"Hanko", mkRat 229 10, mkRat 598 10, "Finland"⟩),
  ("kotka", ⟨"Kotka", mkRat 269 10, mkRat 605 10, "Finland"⟩),
  ("hamina", ⟨"Hamina", mkRat 272 10, mkRat 606 10, "Finland"⟩),
  ("loviisa", ⟨"Loviisa", mkRat 262 10, mkRat 605 10, "Finland"⟩),
  ("porvoo", ⟨"Porvoo", mkRat 257 10, mkRat 604 10, "Finland"⟩),
  ("vaasa", ⟨"Vaasa", mkRat 216 10, mkRat 631 10, "Finland"⟩),
  ("kokkola", ⟨"Kokkola", mkRat 231 10, mkRat 638 10, "Finland"⟩),
  ("oulu", ⟨"Oulu", mkRat 255 10, 65, "Finland"⟩),
  ("kemi", ⟨"Kemi", mkRat 246 10, mkRat 657 10, "Finland"⟩),
  ("tornio", ⟨"Tornio", mkRat 241 10, mkRat 658 10, "Finland"⟩),
  ("aarhus", ⟨"Aarhus", mkRat 102 10, mkRat 562 10, "Denmark"⟩),
  ("aalborg", ⟨"Aalborg", mkRat 99 10, 57, "Denmark"⟩),
  ("esbjerg", ⟨"Esbjerg", mkRat 85 10, mkRat 555 10, "Denmark"⟩),
  ("fredericia", ⟨"Fredericia", mkRat 98 10, mkRat 556 10, "Denmark"⟩),
  ("odense", ⟨"Odense", mkRat 104 10, mkRat 554 10, "Denmark"⟩),
  ("kolding", ⟨"Kolding", mkRat 95 10, mkRat 555 10, "Denmark"⟩),
  ("vejle", ⟨"Vejle", mkRat 95 10, mkRat 557 10, "Denmark"⟩),
  ("horsens", ⟨"Horsens", mkRat 99 10, mkRat 559 10, "Denmark"⟩),
  ("randers", ⟨"Randers", 10, mkRat 565 10, "Denmark"⟩),
  ("viborg", ⟨"Viborg", mkRat 94 10, mkRat 565 10, "Denmark"⟩),
  ("thisted", ⟨"Thisted", mkRat 87 10, mkRat 569 10, "Denmark"⟩),
  ("skagen", ⟨"Skagen", mkRat 106 10, mkRat 577 10, "Denmark"⟩),
  ("frederikshavn", ⟨"Frederikshavn", mkRat 105 10, mkRat 574 10, "Denmark"⟩),
  ("hirtshals", ⟨"Hirtshals", mkRat 99 10, mkRat 576 10, "Denmark"⟩)]

/-- Entries 521-560 of `PortFinder.MAJOR_PORTS` (split for elaboration speed; decimal literals rendered with `mkRat`, e.g. the source's `121.8` as `mkRat 1218 10`). -/
def MAJOR_PORTS_13 : List (String × PortData) := [
  ("hanstholm", ⟨"Hanstholm", mkRat 86 10, mkRat 571 10, "Denmark"⟩),
  ("liverpool", ⟨"Liverpool", mkRat (-29) 10, mkRat 534 10, "UK"⟩),
  ("manchester", ⟨"Manchester", mkRat (-22) 10, mkRat 535 10, "UK"⟩),
  ("hull", ⟨"Hull", mkRat (-3) 10, mkRat 537 10, "UK"⟩),
  ("grimsby", ⟨"Grimsby", mkRat (-1) 10, mkRat 536 10, "UK"⟩),
  ("immingham", ⟨"Immingham", mkRat (-2) 10, mkRat 536 10, "UK"⟩),
  ("southampton", ⟨"Southampton", mkRat (-14) 10, mkRat 509 10, "UK"⟩),
  ("portsmouth", ⟨"Portsmouth", mkRat (-11) 10, mkRat 508 10, "UK"⟩),
  ("dover", ⟨"Dover", mkRat 13 10, mkRat 511 10, "UK"⟩),
  ("ramsgate", ⟨"Ramsgate", mkRat 14 10, mkRat 513 10, "UK"⟩),
  ("sheerness", ⟨"Sheerness", mkRat 8 10, mkRat 514 10, "UK"⟩),
  ("tilbury", ⟨"Tilbury", mkRat 4 10, mkRat 515 10, "UK"⟩),
  ("harwich", ⟨"Harwich", mkRat 13 10, mkRat 519 10, "UK"⟩),
  ("great_yarmouth", ⟨"Great Yarmouth", mkRat 17 10, mkRat 526 10, "UK"⟩),
  ("king_s_lynn", ⟨"King\x27s Lynn", mkRat 4 10, mkRat 528 10, "UK"⟩),
  ("boston", ⟨"Boston", -0, mkRat 529 10, "UK"⟩),
  ("goole", ⟨"Goole", mkRat (-9) 10, mkRat 537 10, "UK"⟩),
  ("preston", ⟨"Preston", mkRat (-27) 10, mkRat 538 10, "UK"⟩),
  ("fleetwood", ⟨"Fleetwood", -3, mkRat 539 10, "UK"⟩),
  ("heysham", ⟨"Heysham", mkRat (-29) 10, 54, "UK"⟩),
  ("barrow", ⟨"Utqiagvik (Barrow)", mkRat (-1568) 10, mkRat 713 10, "USA"⟩),
  ("workington", ⟨"Workington", mkRat (-35) 10, mkRat 546 10, "UK"⟩),
  ("whitehaven", ⟨"Whitehaven", mkRat (-36) 10, mkRat 545 10, "UK"⟩),
  ("glasgow", ⟨"Glasgow", mkRat (-43) 10, mkRat 559 10, "UK"⟩),
  ("greenock", ⟨"Greenock", mkRat (-48) 10, mkRat 559 10, "UK"⟩),
  ("leith", ⟨"Leith", mkRat (-32) 10, mkRat 559 10, "UK"⟩),
  ("edinburgh", ⟨"Edinburgh", mkRat (-32) 10, mkRat 559 10, "UK"⟩),
  ("aberdeen", ⟨"Aberdeen", mkRat (-21) 10, mkRat 571 10, "UK"⟩),
  ("peterhead", ⟨"Peterhead", mkRat (-18) 10, mkRat 575 10, "UK"⟩),
  ("fraserburgh", ⟨"Fraserburgh", -2, mkRat 577 10, "UK"⟩),
  ("inverness", ⟨"Inverness", mkRat (-42) 10, mkRat 575 10, "UK"⟩),
  ("thurso", ⟨"Thurso", mkRat (-35) 10, mkRat 586 10, "UK"⟩),
  ("kirkwall", ⟨"Kirkwall", mkRat (-29) 10, 59, "UK"⟩),
  ("lerwick", ⟨"Lerwick", mkRat (-11) 10, mkRat 602 10, "UK"⟩),
  ("stornoway", ⟨"Stornoway", mkRat (-64) 10, mkRat 582 10, "UK"⟩),
  ("ullapool", ⟨"Ullapool", mkRat (-52) 10, mkRat 579 10, "UK"⟩),
  ("mallaig", ⟨"Mallaig", mkRat (-58) 10, 57, "UK"⟩),
  ("oban", ⟨"Oban", mkRat (-55) 10, mkRat 564 10, "UK"⟩),
  ("campbeltown", ⟨"Campbeltown", mkRat (-56) 10, mkRat 554 10, "UK"⟩),
  ("stranraer", ⟨"Stranraer", -5, mkRat 549 10, "UK"⟩)]

/-- Entries 561-600 of `PortFinder.MAJOR_PORTS` (split for elaboration speed; decimal literals rendered with `mkRat`, e.g. the source's `121.8` as `mkRat 1218 10`). -/
def MAJOR_PORTS_14 : List (String × PortData) := [
  ("belfast", ⟨"Belfast", mkRat (-59) 10, mkRat 546 10, "UK"⟩),
  ("londonderry", ⟨"Londonderry", mkRat (-73) 10, 55, "UK"⟩),
  ("coleraine", ⟨"Coleraine", mkRat (-67) 10, mkRat 551 10, "UK"⟩),
  ("larne", ⟨"Larne", mkRat (-58) 10, mkRat 549 10, "UK"⟩),
  ("bangor", ⟨"Bangor", mkRat (-57) 10, mkRat 547 10, "UK"⟩),
  ("newry", ⟨"Newry", mkRat (-63) 10, mkRat 542 10, "UK"⟩),
  ("warrenpoint", ⟨"Warrenpoint", mkRat (-63) 10, mkRat 541 10, "UK"⟩),
  ("dublin", ⟨"Dublin", mkRat (-62) 10, mkRat 533 10, "Ireland"⟩),
  ("cork", ⟨"Cork", mkRat (-85) 10, mkRat 519 10, "Ireland"⟩),
  ("waterford", ⟨"Waterford", mkRat (-71) 10, mkRat 523 10, "Ireland"⟩),
  ("limerick", ⟨"Limerick", mkRat (-86) 10, mkRat 527 10, "Ireland"⟩),
  ("galway", ⟨"Galway", -9, mkRat 533 10, "Ireland"⟩),
  ("sligo", ⟨"Sligo", mkRat (-85) 10, mkRat 543 10, "Ireland"⟩),
  ("dundalk", ⟨"Dundalk", mkRat (-64) 10, 54, "Ireland"⟩),
  ("drogheda", ⟨"Drogheda", mkRat (-63) 10, mkRat 537 10, "Ireland"⟩),
  ("wexford", ⟨"Wexford", mkRat (-65) 10, mkRat 523 10, "Ireland"⟩),
  ("new_ross", ⟨"New Ross", mkRat (-69) 10, mkRat 524 10, "Ireland"⟩),
  ("foynes", ⟨"Foynes", mkRat (-89) 10, mkRat 526 10, "Ireland"⟩),
  ("shannon", ⟨"Shannon", mkRat (-89) 10, mkRat 527 10, "Ireland"⟩),
  ("westport", ⟨"Westport", mkRat (-95) 10, mkRat 538 10, "Ireland"⟩),
  ("ballina", ⟨"Ballina", mkRat (-92) 10, mkRat 541 10, "Ireland"⟩),
  ("killybegs", ⟨"Killybegs", mkRat (-84) 10, mkRat 546 10, "Ireland"⟩),
  ("donegal", ⟨"Donegal", mkRat (-81) 10, mkRat 547 10, "Ireland"⟩),
  ("havana", ⟨"Havana", mkRat (-824) 10, mkRat 231 10, "Cuba"⟩),
  ("santiago_de_cuba", ⟨"Santiago de Cuba", mkRat (-758) 10, 20, "Cuba"⟩),
  ("cienfuegos", ⟨"Cienfuegos", mkRat (-804) 10, mkRat 221 10, "Cuba"⟩),
  ("mariel", ⟨"Mariel", mkRat (-828) 10, mkRat 229 10, "Cuba"⟩),
  ("nuevitas", ⟨"Nuevitas", mkRat (-773) 10, mkRat 215 10, "Cuba"⟩),
  ("antilla", ⟨"Antilla", mkRat (-758) 10, mkRat 209 10, "Cuba"⟩),
  ("santo_domingo", ⟨"Santo Domingo", mkRat (-699) 10, mkRat 185 10, "Dominican Republic"⟩),
  ("puerto_plata", ⟨"Puerto Plata", mkRat (-707) 10, mkRat 198 10, "Dominican Republic"⟩),
  ("la_romana", ⟨"La Romana", mkRat (-689) 10, mkRat 184 10, "Dominican Republic"⟩),
  ("san_pedro_de_macoris", ⟨"San Pedro de Macorís", mkRat (-693) 10, mkRat 185 10, "Dominican Republic"⟩),
  ("port_au_prince", ⟨"Port-au-Prince", mkRat (-723) 10, mkRat 185 10, "Haiti"⟩),
  ("cap_haitien", ⟨"Cap-Haïtien", mkRat (-722) 10, mkRat 198 10, "Haiti"⟩),
  ("gonaives", ⟨"Gonaïves", mkRat (-727) 10, mkRat 194 10, "Haiti"⟩),
  ("nassau", ⟨"Nassau", mkRat (-773) 10, mkRat 251 10, "Bahamas"⟩),
  ("freeport", ⟨"Freeport", mkRat (-787) 10, mkRat 265 10, "Bahamas"⟩),
  ("belize_city", ⟨"Belize City", mkRat (-882) 10, mkRat 175 10, "Belize"⟩),
  ("dangriga", ⟨"Dangriga", mkRat (-882) 10, mkRat 169 10, "Belize"⟩)]

/-- Entries 601-640 of `PortFinder.MAJOR_PORTS` (split for elaboration speed; decimal literals rendered with `mkRat`, e.g. the source's `121.8` as `mkRat 1218 10`). -/
def MAJOR_PORTS_15 : List (String × PortData) := [
  ("punta_gorda", ⟨"Punta Gorda", mkRat (-888) 10, mkRat 161 10, "Belize"⟩),
  ("san_pedro", ⟨"San Pedro", mkRat (-879) 10, mkRat 179 10, "Belize"⟩),
  ("caye_caulker", ⟨"Caye Caulker", -88, mkRat 177 10, "Belize"⟩),
  ("petropavlovsk", ⟨"Petropavlovsk-Kamchatsky", mkRat 1586 10, 53, "Russia"⟩),
  ("magadan", ⟨"Magadan", mkRat 1508 10, mkRat 596 10, "Russia"⟩),
  ("anadyr", ⟨"Anadyr", mkRat 1775 10, mkRat 647 10, "Russia"⟩),
  ("provideniya", ⟨"Provideniya", mkRat (-1732) 10, mkRat 644 10, "Russia"⟩),
  ("nome", ⟨"Nome", mkRat (-1654) 10, mkRat 645 10, "USA"⟩),
  ("kotzebue", ⟨"Kotzebue", mkRat (-1626) 10, mkRat 669 10, "USA"⟩),
  ("prudhoe_bay", ⟨"Prudhoe Bay", mkRat (-1483) 10, mkRat 703 10, "USA"⟩),
  ("dutch_harbor", ⟨"Dutch Harbor", mkRat (-1665) 10, mkRat 539 10, "USA"⟩),
  ("kodiak", ⟨"Kodiak", mkRat (-1524) 10, mkRat 578 10, "USA"⟩),
  ("homer", ⟨"Homer", mkRat (-1515) 10, mkRat 596 10, "USA"⟩),
  ("valdez", ⟨"Valdez", mkRat (-1463) 10, mkRat 611 10, "USA"⟩),
  ("whittier", ⟨"Whittier", mkRat (-1487) 10, mkRat 608 10, "USA"⟩),
  ("seward", ⟨"Seward", mkRat (-1494) 10, mkRat 601 10, "USA"⟩),
  ("haines", ⟨"Haines", mkRat (-1354) 10, mkRat 592 10, "USA"⟩),
  ("skagway", ⟨"Skagway", mkRat (-1353) 10, mkRat 595 10, "USA"⟩),
  ("juneau", ⟨"Juneau", mkRat (-1344) 10, mkRat 583 10, "USA"⟩),
  ("sitka", ⟨"Sitka", mkRat (-1352) 10, mkRat 571 10, "USA"⟩),
  ("petersburg", ⟨"Petersburg", -133, mkRat 568 10, "USA"⟩),
  ("wrangell", ⟨"Wrangell", mkRat (-1324) 10, mkRat 565 10, "USA"⟩),
  ("ketchikan", ⟨"Ketchikan", mkRat (-1316) 10, mkRat 553 10, "USA"⟩),
  ("prince_of_wales", ⟨"Prince of Wales", -133, mkRat 556 10, "USA"⟩),
  ("metlakatla", ⟨"Metlakatla", mkRat (-1316) 10, mkRat 551 10, "USA"⟩),
  ("hydaburg", ⟨"Hydaburg", mkRat (-1328) 10, mkRat 552 10, "USA"⟩),
  ("craig", ⟨"Craig", mkRat (-1331) 10, mkRat 555 10, "USA"⟩),
  ("klawock", ⟨"Klawock", mkRat (-1331) 10, mkRat 556 10, "USA"⟩),
  ("thorne_bay", ⟨"Thorne Bay", mkRat (-1325) 10, mkRat 557 10, "USA"⟩),
  ("hollis", ⟨"Hollis", mkRat (-1326) 10, mkRat 555 10, "USA"⟩),
  ("kasaan", ⟨"Kasaan", mkRat (-1324) 10, mkRat 555 10, "USA"⟩),
  ("coffman_cove", ⟨"Coffman Cove", mkRat (-1328) 10, 56, "USA"⟩),
  ("naukati", ⟨"Naukati", mkRat (-1332) 10, mkRat 559 10, "USA"⟩),
  ("whale_pass", ⟨"Whale Pass", mkRat (-1331) 10, mkRat 561 10, "USA"⟩),
  ("point_baker", ⟨"Point Baker", mkRat (-1336) 10, mkRat 564 10, "USA"⟩),
  ("port_protection", ⟨"Port Protection", mkRat (-1336) 10, mkRat 563 10, "USA"⟩),
  ("elfin_cove", ⟨"Elfin Cove", mkRat (-1363) 10, mkRat 582 10, "USA"⟩),
  ("gustavus", ⟨"Gustavus", mkRat (-1357) 10, mkRat 584 10, "USA"⟩),
  ("pelican", ⟨"Pelican", mkRat (-1362) 10, mkRat 579 10, "USA"⟩),
  ("tenakee_springs", ⟨"Tenakee Springs", mkRat (-1352) 10, mkRat 578 10, "USA"⟩)]

/-- Entries 641-679 of `PortFinder.MAJOR_PORTS` (split for elaboration speed; decimal literals rendered with `mkRat`, e.g. the source's `121.8` as `mkRat 1218 10`). -/
def MAJOR_PORTS_16 : List (String × PortData) := [
  ("angoon", ⟨"Angoon", mkRat (-1346) 10, mkRat 575 10, "USA"⟩),
  ("kake", ⟨"Kake", mkRat (-1339) 10, mkRat 569 10, "USA"⟩),
  ("kupreanof", ⟨"Kupreanof", -133, mkRat 568 10, "USA"⟩),
  ("port_alexander", ⟨"Port Alexander", mkRat (-1346) 10, mkRat 562 10, "USA"⟩),
  ("meyers_chuck", ⟨"Meyers Chuck", mkRat (-1323) 10, mkRat 561 10, "USA"⟩),
  ("ketchikan_gateway", ⟨"Ketchikan Gateway", mkRat (-1316) 10, mkRat 554 10, "USA"⟩),
  ("saxman", ⟨"Saxman", mkRat (-1316) 10, mkRat 553 10, "USA"⟩),
  ("mountain_point", ⟨"Mountain Point", mkRat (-1316) 10, mkRat 551 10, "USA"⟩),
  ("mud_bay", ⟨"Mud Bay", mkRat (-1314) 10, mkRat 551 10, "USA"⟩),
  ("knudson_cove", ⟨"Knudson Cove", mkRat (-1317) 10, mkRat 554 10, "USA"⟩),
  ("clover_pass", ⟨"Clover Pass", mkRat (-1318) 10, mkRat 554 10, "USA"⟩),
  ("herring_cove", ⟨"Herring Cove", mkRat (-1319) 10, mkRat 554 10, "USA"⟩),
  ("rotschild", ⟨"Rotschild", -132, mkRat 554 10, "USA"⟩),
  ("seal_cove", ⟨"Seal Cove", -132, mkRat 554 10, "USA"⟩),
  ("george_inlet", ⟨"George Inlet", mkRat (-1316) 10, mkRat 552 10, "USA"⟩),
  ("pennock_island", ⟨"Pennock Island", mkRat (-1317) 10, mkRat 553 10, "USA"⟩),
  ("gravina_island", ⟨"Gravina Island", mkRat (-1317) 10, mkRat 552 10, "USA"⟩),
  ("annette_island", ⟨"Annette Island", mkRat (-1316) 10, 55, "USA"⟩),
  ("duke_island", ⟨"Duke Island", mkRat (-1313) 10, mkRat 549 10, "USA"⟩),
  ("percy_island", ⟨"Percy Island", mkRat (-1311) 10, mkRat 548 10, "USA"⟩),
  ("tree_point", ⟨"Tree Point", -131, mkRat 548 10, "USA"⟩),
  ("foggy_bay", ⟨"Foggy Bay", -131, mkRat 547 10, "USA"⟩),
  ("cape_fox", ⟨"Cape Fox", mkRat (-1311) 10, mkRat 548 10, "USA"⟩),
  ("mary_island", ⟨"Mary Island", mkRat (-1312) 10, mkRat 551 10, "USA"⟩),
  ("dall_island", ⟨"Dall Island", -133, mkRat 549 10, "USA"⟩),
  ("long_island", ⟨"Long Island", mkRat (-1331) 10, mkRat 549 10, "USA"⟩),
  ("sukkwan_island", ⟨"Sukkwan Island", mkRat (-1333) 10, mkRat 551 10, "USA"⟩),
  ("noyes_island", ⟨"Noyes Island", mkRat (-1337) 10, mkRat 555 10, "USA"⟩),
  ("lulu_island", ⟨"Lulu Island", mkRat (-1336) 10, mkRat 554 10, "USA"⟩),
  ("baker_island", ⟨"Baker Island", mkRat (-1336) 10, mkRat 553 10, "USA"⟩),
  ("san_juan_bautista", ⟨"San Juan Bautista", mkRat (-1337) 10, mkRat 554 10, "USA"⟩),
  ("tuxekan", ⟨"Tuxekan", mkRat (-1333) 10, mkRat 557 10, "USA"⟩),
  ("labouchere_bay", ⟨"Labouchere Bay", mkRat (-1334) 10, mkRat 555 10, "USA"⟩),
  ("sea_otter_sound", ⟨"Sea Otter Sound", -133, mkRat 558 10, "USA"⟩),
  ("klawock_inlet", ⟨"Klawock Inlet", mkRat (-1331) 10, mkRat 556 10, "USA"⟩),
  ("sarkar_cove", ⟨"Sarkar Cove", mkRat (-1331) 10, mkRat 557 10, "USA"⟩),
  ("shakan", ⟨"Shakan", -133, mkRat 557 10, "USA"⟩),
  ("red_bay", ⟨"Red Bay", -133, mkRat 558 10, "USA"⟩),
  ("point_baker_2", ⟨"Point Baker 2", mkRat (-1336) 10, mkRat 564 10, "USA"⟩)]

/-- `PortFinder.MAJOR_PORTS`, the full registry in source order. -/
def MAJOR_PORTS : List (String × PortData) :=
  MAJOR_PORTS_0 ++ MAJOR_PORTS_1 ++ MAJOR_PORTS_2 ++ MAJOR_PORTS_3 ++ MAJOR_PORTS_4 ++ MAJOR_PORTS_5 ++ MAJOR_PORTS_6 ++ MAJOR_PORTS_7 ++ MAJOR_PORTS_8 ++ MAJOR_PORTS_9 ++ MAJOR_PORTS_10 ++ MAJOR_PORTS_11 ++ MAJOR_PORTS_12 ++ MAJOR_PORTS_13 ++ MAJOR_PORTS_14 ++ MAJOR_PORTS_15 ++ MAJOR_PORTS_16

/-- The squared planar distance computed inside `find_nearest_port`:
`(coord.lon - port.lon)² + (coord.lat - port.lat)²`.  The source compares
`distance = (… ) ** 0.5`; since the square root is strictly monotone on
nonnegatives (lemma `sqrt_lt_sqrt_iff_of_nonneg` below), comparing the
squared distances selects exactly the same ports. -/
def port_distance_sq (coord : Coordinate) (port_data : PortData) : ℚ :=
  ratAdd (ratMul (ratSub coord.lon port_data.lon) (ratSub coord.lon port_data.lon))
    (ratMul (ratSub coord.lat port_data.lat) (ratSub coord.lat port_data.lat))

/-- `distance < min_distance` where `none` stands for the initial `float('inf')`. -/
def lt_min_distance : ℚ → Option ℚ → Bool
  | _, none => true
  | d, some m => decide (d < m)

/-- The candidate filter of `find_nearest_port`:
`if exclude_country and port_data['country'] == exclude_country: continue`
(Python truthiness on `exclude_country`). -/
def port_excluded (exclude_country : Option String) (port_data : PortData) : Bool :=
  pyTruthy exclude_country && (port_data.country == exclude_country.getD "")

/-- The loop of `find_nearest_port`, carrying `min_distance` (`none` =
`float('inf')`) and `nearest_port` through the iteration over the registry
values. -/
def find_nearest_port_loop (coord : Coordinate) (exclude_country : Option String) :
    List PortData → Option ℚ → Option PortData → Option PortData
  | [], _min_distance, nearest_port => nearest_port
  | port_data :: rest, min_distance, nearest_port =>
    if port_excluded exclude_country port_data then
      find_nearest_port_loop coord exclude_country rest min_distance nearest_port
    else
      let distance := port_distance_sq coord port_data
      if lt_min_distance distance min_distance then
        find_nearest_port_loop coord exclude_country rest (some distance) (some port_data)
      else
        find_nearest_port_loop coord exclude_country rest min_distance nearest_port

/-- `PortFinder.find_nearest_port(coord, exclude_country=None)`. -/
def find_nearest_port (coord : Coordinate)
    (exclude_country : Option String := none) : Option PortData :=
  find_nearest_port_loop coord exclude_country (MAJOR_PORTS.map Prod.snd) none none

/-- `PortFinder.is_port_city`: lowercased, space→underscore form of the name
is a substring of, or a superstring of, some registry key. -/
def is_port_city (place_name : String) : Bool :=
  let place_lower := pyReplaceSpace (pyLower place_name)
  MAJOR_PORTS.any fun kv => strContains place_lower kv.1 || strContains kv.1 place_lower

/-! ### Route Requirement Analyzer -/

/-- Python `str.strip()` whitespace predicate. -/
def pyIsSpace (c : Char) : Bool :=
  c == ' ' || c == '\t' || c == '\n' || c == '\r' || c == '\x0b' || c == '\x0c'

/-- Python `str.strip()`. -/
def pyStrip (s : String) : String :=
  String.mk (((s.data.dropWhile pyIsSpace).reverse.dropWhile pyIsSpace).reverse)

/-- Python `place_name.split(',')`. -/
def pySplitComma (s : String) : List String :=
  (s.data.splitOn ',').map String.mk

/-- The `country_patterns` dict of `_extract_country`, in source order. -/
def country_patterns : List (String × List String) := [
  ("colombia", ["colombia", "bogotá", "medellin", "medellín", "cali", "barranquilla", "cartagena"]),
  ("usa", ["usa", "united states", "miami", "new york", "los angeles", "chicago", "denver", "salt lake city"]),
  ("brazil", ["brazil", "brasil", "são paulo", "rio de janeiro", "santos", "salvador"]),
  ("spain", ["spain", "españa", "madrid", "barcelona", "valencia", "sevilla"]),
  ("uk", ["uk", "united kingdom", "london", "manchester", "liverpool", "glasgow"]),
  ("germany", ["germany", "deutschland", "hamburg", "berlin", "munich", "frankfurt"]),
  ("china", ["china", "shanghai", "beijing", "guangzhou", "shenzhen"]),
  ("cuba", ["cuba", "havana", "habana"])]

/-- `EnhancedRouteCalculator._extract_country`: first country whose pattern
list has a match in the lowercased name; otherwise the stripped last
comma-separated token (if a comma is present); otherwise `None`. -/
def _extract_country (place_name : String) : Option String :=
  let place_lower := pyLower place_name
  match country_patterns.find? (fun cp => cp.2.any fun pattern => strContains place_lower pattern) with
  | some cp => some cp.1
  | none =>
    if strContains place_name "," then
      let parts := (pySplitComma place_name).map pyStrip
      if parts.length ≥ 2 then some (parts.getLastD "") else none
    else none

/-- The `water_crossings` table of `_requires_water_crossing`, in source
order. -/
def water_crossings : List (String × String) := [
  ("usa", "cuba"), ("usa", "jamaica"), ("usa", "bahamas"),
  ("uk", "usa"), ("germany", "usa"), ("spain", "usa"),
  ("uk", "brazil"), ("germany", "brazil"), ("spain", "brazil"),
  ("china", "usa"), ("china", "uk"), ("china", "germany"),
  ("japan", "usa"), ("japan", "uk"),
  ("australia", "usa"), ("australia", "uk"), ("australia", "china")]

/-- `EnhancedRouteCalculator._requires_water_crossing`.  When both countries
are truthy the function returns the table lookup (in either order) directly;
only otherwise does it fall through to the `|Δlon| > 60` heuristic and the
Caribbean/Gulf bounding boxes. -/
def _requires_water_crossing (origin destination : Coordinate)
    (origin_country destination_country : Option String) : Bool :=
  if pyTruthy origin_country && pyTruthy destination_country then
    let country_pair := (pyLower (origin_country.getD ""), pyLower (destination_country.getD ""))
    let reverse_pair := (country_pair.2, country_pair.1)
    water_crossings.contains country_pair || water_crossings.contains reverse_pair
  else if pyAbs (ratSub origin.lon destination.lon) > 60 then true
  else if origin.lat > 20 ∧ origin.lat < 30 ∧ origin.lon > -90 ∧ origin.lon < -75 ∧
      destination.lat > 20 ∧ destination.lat < 30 ∧ destination.lon > -85 ∧ destination.lon < -70 then true
  else false

/-- The `continental_groups` dict of `_are_continentally_connected`. -/
def continental_groups : List (String × List String) := [
  ("north_america", ["usa", "canada", "mexico"]),
  ("south_america", ["colombia", "brazil", "argentina", "chile", "peru", "ecuador", "venezuela"]),
  ("europe", ["uk", "germany", "france", "spain", "italy", "netherlands", "belgium"]),
  ("asia", ["china", "japan", "india", "south korea", "singapore", "thailand"])]

/-- `EnhancedRouteCalculator._are_continentally_connected` (Python
truthiness on the two optional country strings). -/
def _are_continentally_connected (country1 country2 : Option String) : Bool :=
  if !(pyTruthy country1) || !(pyTruthy country2) then false
  else continental_groups.any fun g =>
    g.2.contains (pyLower (country1.getD "")) && g.2.contains (pyLower (country2.getD ""))

/-- `EnhancedRouteCalculator._determine_optimal_mode`: the source's ordered
cascade of guarded returns, Rules 1-6 plus the trailing default. -/
def _determine_optimal_mode (is_domestic : Bool) (distance_km : ℚ)
    (requires_water_crossing origin_is_port destination_is_port : Bool)
    (origin_country destination_country : Option String) : String :=
  if is_domestic && decide (distance_km < 1500) then "land_only"
  else if requires_water_crossing then
    (if origin_is_port && destination_is_port then "sea_only" else "multimodal")
  else if distance_km < 800 then "land_only"
  else if origin_is_port && destination_is_port && decide (distance_km > 1000) then "sea_only"
  else if distance_km > 2500 then
    (if _are_continentally_connected origin_country destination_country then "land_only"
     else "multimodal")
  else if distance_km ≤ 2500 then
    (if _are_continentally_connected origin_country destination_country then "land_only"
     else "multimodal")
  else "multimodal"

/-- The dict returned by `_analyze_route_requirements`. -/
structure RouteAnalysis where
  recommended_mode : String
  is_domestic : Bool
  direct_distance_km : ℚ
  requires_water_crossing : Bool
  origin_is_port : Bool
  destination_is_port : Bool
  origin_country : Option String
  destination_country : Option String
deriving DecidableEq, Repr

/-- `EnhancedRouteCalculator._analyze_route_requirements`.  The haversine
distance `_calculate_haversine_distance` (floating-point `sin`/`cos`/`asin`)
is supplied as the oracle `hav`. -/
def _analyze_route_requirements (hav : Coordinate → Coordinate → ℚ)
    (origin_name destination_name : String)
    (origin_coord destination_coord : Coordinate) : RouteAnalysis :=
  let origin_is_port := is_port_city origin_name
  let destination_is_port := is_port_city destination_name
  let direct_distance_km := hav origin_coord destination_coord
  let origin_country := _extract_country origin_name
  let destination_country := _extract_country destination_name
  let is_domestic := pyTruthy origin_country && pyTruthy destination_country &&
    (pyLower (origin_country.getD "") == pyLower (destination_country.getD ""))
  let requires_water_crossing :=
    _requires_water_crossing origin_coord destination_coord origin_country destination_country
  let recommended_mode := _determine_optimal_mode is_domestic direct_distance_km
    requires_water_crossing origin_is_port destination_is_port origin_country destination_country
  ⟨recommended_mode, is_domestic, direct_distance_km, requires_water_crossing,
    origin_is_port, destination_is_port, origin_country, destination_country⟩

/-! ### Segment Builder and Route Assembler -/

/-- The per-step radicand of `_calculate_distance`:
`(dx * 111) ** 2 + (dy * 111) ** 2` for one consecutive waypoint pair. -/
def step_distance_sq (a b : Coordinate) : ℚ :=
  ratAdd (ratMul (ratMul (ratSub b.lon a.lon) 111) (ratMul (ratSub b.lon a.lon) 111))
    (ratMul (ratMul (ratSub b.lat a.lat) 111) (ratMul (ratSub b.lat a.lat) 111))

/-- `EnhancedRouteCalculator._calculate_distance`: 0 for fewer than two
waypoints, otherwise the sum over consecutive pairs of the square root of
`step_distance_sq`; the floating-point `** 0.5` is the oracle `sqrtQ`. -/
def _calculate_distance (sqrtQ : ℚ → ℚ) (waypoints : List Coordinate) : ℚ :=
  if waypoints.length < 2 then 0
  else (waypoints.zip waypoints.tail).foldl
    (fun total_distance p => ratAdd total_distance (sqrtQ (step_distance_sq p.1 p.2))) 0

/-- `EnhancedRouteCalculator._create_land_route`.  The source defines this
method twice with identical bodies up to the description string; the second
definition (the one that is in effect at runtime, with the
`"Direct land route"` description) is the one embedded. -/
def _create_land_route (sqrtQ : ℚ → ℚ) (origin destination : Coordinate)
    (origin_name destination_name : String) : List RouteSegment :=
  let waypoints := [origin, destination]
  let distance := _calculate_distance sqrtQ waypoints
  [⟨SegmentType.LAND, origin, destination, waypoints,
    "Direct land route: " ++ origin_name ++ " -> " ++ destination_name, distance⟩]

/-- `EnhancedRouteCalculator._create_sea_route`. -/
def _create_sea_route (sqrtQ : ℚ → ℚ) (sea_route_resolution : ℤ)
    (provider : SeaRouteOutcome) (origin destination : Coordinate)
    (origin_name destination_name : String) : List RouteSegment :=
  let waypoints_raw := get_maritime_route origin.lon origin.lat destination.lon destination.lat
    sea_route_resolution provider
  if waypoints_raw.isEmpty then []
  else
    let waypoints := waypoints_raw.map fun coord => Coordinate.mk coord.1 coord.2
    let distance := _calculate_distance sqrtQ waypoints
    [⟨SegmentType.SEA, origin, destination, waypoints,
      "Sea route: " ++ origin_name ++ " -> " ++ destination_name, distance⟩]

/-- `EnhancedRouteCalculator._create_land_sea_land_route`.  The source reads
`origin_port_data.get('country')` before its `None` check, which would raise
if `find_nearest_port` returned `None` there; with the nonempty registry and
no exclusion that call never returns `None` (`find_nearest_port_no_exclude_isSome`
below), and the embedding passes the optional country through `Option.map`. -/
def _create_land_sea_land_route (sqrtQ : ℚ → ℚ) (sea_route_resolution : ℤ)
    (provider : SeaRouteOutcome) (origin destination : Coordinate)
    (origin_name destination_name : String) : List RouteSegment :=
  let origin_port_opt := find_nearest_port origin
  let destination_port_opt := find_nearest_port destination (origin_port_opt.map PortData.country)
  match origin_port_opt, destination_port_opt with
  | some origin_port_data, some destination_port_data =>
    let origin_port := Coordinate.mk origin_port_data.lon origin_port_data.lat
    let destination_port := Coordinate.mk destination_port_data.lon destination_port_data.lat
    let land_waypoints_1 := [origin, origin_port]
    let segment1 : RouteSegment := ⟨SegmentType.LAND, origin, origin_port, land_waypoints_1,
      "Land: " ++ origin_name ++ " -> " ++ origin_port_data.name,
      _calculate_distance sqrtQ land_waypoints_1⟩
    let sea_waypoints_raw := get_maritime_route origin_port.lon origin_port.lat
      destination_port.lon destination_port.lat sea_route_resolution provider
    let sea_segments : List RouteSegment :=
      if sea_waypoints_raw.isEmpty then []
      else
        let sea_waypoints := sea_waypoints_raw.map fun coord => Coordinate.mk coord.1 coord.2
        [⟨SegmentType.SEA, origin_port, destination_port, sea_waypoints,
          "Sea: " ++ origin_port_data.name ++ " -> " ++ destination_port_data.name,
          _calculate_distance sqrtQ sea_waypoints⟩]
    let land_waypoints_2 := [destination_port, destination]
    let segment3 : RouteSegment := ⟨SegmentType.LAND, destination_port, destination, land_waypoints_2,
      "Land: " ++ destination_port_data.name ++ " -> " ++ destination_name,
      _calculate_distance sqrtQ land_waypoints_2⟩
    segment1 :: sea_segments ++ [segment3]
  | _, _ => _create_land_route sqrtQ origin destination origin_name destination_name

/-- `EnhancedRouteCalculator._create_sea_land_route` (port to inland). -/
def _create_sea_land_route (sqrtQ : ℚ → ℚ) (sea_route_resolution : ℤ)
    (provider : SeaRouteOutcome) (origin destination : Coordinate)
    (origin_name destination_name : String) : List RouteSegment :=
  match find_nearest_port destination with
  | none => _create_land_route sqrtQ origin destination origin_name destination_name
  | some destination_port_data =>
    let destination_port := Coordinate.mk destination_port_data.lon destination_port_data.lat
    let sea_waypoints_raw := get_maritime_route origin.lon origin.lat
      destination_port.lon destination_port.lat sea_route_resolution provider
    let sea_segments : List RouteSegment :=
      if sea_waypoints_raw.isEmpty then []
      else
        let sea_waypoints := sea_waypoints_raw.map fun coord => Coordinate.mk coord.1 coord.2
        [⟨SegmentType.SEA, origin, destination_port, sea_waypoints,
          "Sea: " ++ origin_name ++ " -> " ++ destination_port_data.name,
          _calculate_distance sqrtQ sea_waypoints⟩]
    let land_waypoints := [destination_port, destination]
    sea_segments ++ [⟨SegmentType.LAND, destination_port, destination, land_waypoints,
      "Land: " ++ destination_port_data.name ++ " -> " ++ destination_name,
      _calculate_distance sqrtQ land_waypoints⟩]

/-- `EnhancedRouteCalculator._create_land_sea_route` (inland to port). -/
def _create_land_sea_route (sqrtQ : ℚ → ℚ) (sea_route_resolution : ℤ)
    (provider : SeaRouteOutcome) (origin destination : Coordinate)
    (origin_name destination_name : String) : List RouteSegment :=
  match find_nearest_port origin with
  | none => _create_land_route sqrtQ origin destination origin_name destination_name
  | some origin_port_data =>
    let origin_port := Coordinate.mk origin_port_data.lon origin_port_data.lat
    let land_waypoints := [origin, origin_port]
    let segment1 : RouteSegment := ⟨SegmentType.LAND, origin, origin_port, land_waypoints,
      "Land: " ++ origin_name ++ " -> " ++ origin_port_data.name,
      _calculate_distance sqrtQ land_waypoints⟩
    let sea_waypoints_raw := get_maritime_route origin_port.lon origin_port.lat
      destination.lon destination.lat sea_route_resolution provider
    let sea_segments : List RouteSegment :=
      if sea_waypoints_raw.isEmpty then []
      else
        let sea_waypoints := sea_waypoints_raw.map fun coord => Coordinate.mk coord.1 coord.2
        [⟨SegmentType.SEA, origin_port, destination, sea_waypoints,
          "Sea: " ++ origin_port_data.name ++ " -> " ++ destination_name,
          _calculate_distance sqrtQ sea_waypoints⟩]
    segment1 :: sea_segments

/-- `EnhancedRouteCalculator.calculate_enhanced_route`.  Oracles: `geo` for
`CoordinateExtractor.get_coordinates`, `hav` for the haversine distance,
`sqrtQ` for the `** 0.5` of `_calculate_distance`, and `provider` for the
observable behaviour of the (at most one) SeaRoute invocation.  Returns
`none` exactly where the source returns `None`. -/
def calculate_enhanced_route (geo : String → Option Coordinate)
    (hav : Coordinate → Coordinate → ℚ) (sqrtQ : ℚ → ℚ)
    (sea_route_resolution : ℤ) (provider : SeaRouteOutcome)
    (origin_name destination_name : String) : Option EnhancedRoute :=
  match geo origin_name, geo destination_name with
  | some origin_coord, some destination_coord =>
    let route_analysis := _analyze_route_requirements hav origin_name destination_name
      origin_coord destination_coord
    let built : String × List RouteSegment :=
      if route_analysis.recommended_mode == "land_only" then
        ("Land-only route: " ++ origin_name ++ " -> " ++ destination_name,
         _create_land_route sqrtQ origin_coord destination_coord origin_name destination_name)
      else if route_analysis.recommended_mode == "sea_only" then
        ("Sea route: " ++ origin_name ++ " -> " ++ destination_name,
         _create_sea_route sqrtQ sea_route_resolution provider origin_coord destination_coord
           origin_name destination_name)
      else if route_analysis.recommended_mode == "multimodal" then
        (if route_analysis.origin_is_port && route_analysis.destination_is_port then
          ("Port to Port: " ++ origin_name ++ " -> " ++ destination_name,
           _create_sea_route sqrtQ sea_route_resolution provider origin_coord destination_coord
             origin_name destination_name)
        else if !route_analysis.origin_is_port && !route_analysis.destination_is_port then
          ("Multimodal route: " ++ origin_name ++ " -> " ++ destination_name,
           _create_land_sea_land_route sqrtQ sea_route_resolution provider origin_coord
             destination_coord origin_name destination_name)
        else if route_analysis.origin_is_port && !route_analysis.destination_is_port then
          ("Port to Inland: " ++ origin_name ++ " -> " ++ destination_name,
           _create_sea_land_route sqrtQ sea_route_resolution provider origin_coord
             destination_coord origin_name destination_name)
        else
          ("Inland to Port: " ++ origin_name ++ " -> " ++ destination_name,
           _create_land_sea_route sqrtQ sea_route_resolution provider origin_coord
             destination_coord origin_name destination_name))
      else ("", [])
    if built.2.isEmpty then none
    else some ⟨built.2,
      built.2.foldl (fun total segment => ratAdd total segment.distance_km) 0,
      built.2.foldl (fun total segment => total + segment.waypoints.length) 0,
      built.1⟩
  | _, _ => none



/-- The waypoint discipline every built segment actually satisfies: LAND
segments carry exactly `[origin, destination]`; SEA segments carry a
nonempty list, which equals `[origin, destination]` whenever the provider
yielded no usable coordinates (every failure path). -/
def segment_waypoints_ok (provider : SeaRouteOutcome) (s : RouteSegment) : Prop :=
  (s.type = SegmentType.LAND → s.waypoints = [s.origin, s.destination]) ∧
  (s.type = SegmentType.SEA → s.waypoints ≠ [] ∧
    ((providerCoords provider).getD [] = [] → s.waypoints = [s.origin, s.destination]))

/-! ### Specification-side definitions

The following definitions transcribe the specification's wording (not the
source); they exist only to be compared against the source-derived
definitions above. -/

/-- The mode-selection cascade exactly as the specification words it:
(a) domestic and distance < 1500 → land_only; (b) water crossing → sea_only
iff both endpoints are ports, else multimodal; (c) distance < 800 →
land_only; (d) both ports and distance > 1000 → sea_only; (e) distance >
2500 → continental-group test; (f) distance in [800, 2500] → the same test;
(g) otherwise multimodal. -/
def determine_optimal_mode_spec_cascade (is_domestic : Bool) (distance_km : ℚ)
    (requires_water_crossing origin_is_port destination_is_port : Bool)
    (origin_country destination_country : Option String) : String :=
  if is_domestic && decide (distance_km < 1500) then "land_only"
  else if requires_water_crossing then
    (if origin_is_port && destination_is_port then "sea_only" else "multimodal")
  else if distance_km < 800 then "land_only"
  else if origin_is_port && destination_is_port && decide (distance_km > 1000) then "sea_only"
  else if distance_km > 2500 then
    (if _are_continentally_connected origin_country destination_country then "land_only"
     else "multimodal")
  else if 800 ≤ distance_km ∧ distance_km ≤ 2500 then
    (if _are_continentally_connected origin_country destination_country then "land_only"
     else "multimodal")
  else "multimodal"

/-- The source cascade with the trailing `multimodal` default removed: the
medium-distance rule is the unconditional final branch. -/
def determine_optimal_mode_no_default (is_domestic : Bool) (distance_km : ℚ)
    (requires_water_crossing origin_is_port destination_is_port : Bool)
    (origin_country destination_country : Option String) : String :=
  if is_domestic && decide (distance_km < 1500) then "land_only"
  else if requires_water_crossing then
    (if origin_is_port && destination_is_port then "sea_only" else "multimodal")
  else if distance_km < 800 then "land_only"
  else if origin_is_port && destination_is_port && decide (distance_km > 1000) then "sea_only"
  else if distance_km > 2500 then
    (if _are_continentally_connected origin_country destination_country then "land_only"
     else "multimodal")
  else if _are_continentally_connected origin_country destination_country then "land_only"
  else "multimodal"

/-- The water-crossing test exactly as the specification words it: the
resolved table pair decides first, *else* the `|Δlon| > 60` heuristic, else
the bounding boxes, else false — so for a resolved pair absent from the
table the longitude test still applies. -/
def requires_water_crossing_spec (origin destination : Coordinate)
    (origin_country destination_country : Option String) : Bool :=
  if pyTruthy origin_country && pyTruthy destination_country &&
      (water_crossings.contains
        (pyLower (origin_country.getD ""), pyLower (destination_country.getD "")) ||
       water_crossings.contains
        (pyLower (destination_country.getD ""), pyLower (origin_country.getD ""))) then true
  else if pyAbs (ratSub origin.lon destination.lon) > 60 then true
  else if origin.lat > 20 ∧ origin.lat < 30 ∧ origin.lon > -90 ∧ origin.lon < -75 ∧
      destination.lat > 20 ∧ destination.lat < 30 ∧ destination.lon > -85 ∧
      destination.lon < -70 then true
  else false

/-! ### Bridging lemmas for the evaluable arithmetic -/

/-- `ratAdd` agrees with the standard `ℚ` addition. -/
theorem ratAdd_eq (a b : ℚ) : ratAdd a b = a + b := (Rat.add_def' a b).symm

/-- `ratSub` agrees with the standard `ℚ` subtraction. -/
theorem ratSub_eq (a b : ℚ) : ratSub a b = a - b := (Rat.sub_def' a b).symm

/-- `ratMul` agrees with the standard `ℚ` multiplication. -/
theorem ratMul_eq (a b : ℚ) : ratMul a b = a * b := by
  rw [Rat.mul_def, Rat.normalize_eq_mkRat]; rfl

/-- `pyAbs` is the absolute value. -/
theorem pyAbs_eq (q : ℚ) : pyAbs q = |q| := by
  unfold pyAbs
  rcases le_or_lt 0 q with h | h
  · rw [if_neg (not_lt.2 h), abs_of_nonneg h]
  · rw [if_pos h, abs_of_neg h]

/-- Folding `ratAdd` over mapped values is the standard list sum. -/
theorem foldl_ratAdd_map_eq_sum {α : Type} (f : α → ℚ) (l : List α) (a : ℚ) :
    l.foldl (fun total x => ratAdd total (f x)) a = a + (l.map f).sum := by
  induction l generalizing a with
  | nil => simp
  | cons x xs ih =>
    rw [List.foldl_cons, ih, ratAdd_eq, List.map_cons, List.sum_cons]
    ring

/-- Folding `Nat` addition of mapped values is the standard list sum. -/
theorem foldl_add_map_eq_sum {α : Type} (f : α → ℕ) (l : List α) (a : ℕ) :
    l.foldl (fun total x => total + f x) a = a + (l.map f).sum := by
  induction l generalizing a with
  | nil => simp
  | cons x xs ih => simp [ih]; omega

/-- Comparing square roots of nonnegative rationals is comparing the
radicands: the justification for `find_nearest_port` comparing
`port_distance_sq` values where the source compares their `** 0.5` powers. -/
theorem rat_sqrt_lt_sqrt_iff (a b : ℚ) (ha : 0 ≤ a) :
    Real.sqrt (a : ℝ) < Real.sqrt (b : ℝ) ↔ a < b := by
  rw [Real.sqrt_lt_sqrt_iff (by exact_mod_cast ha)]
  exact_mod_cast Iff.rfl

/-! ### Longitude wrap lemmas -/

/-- With sufficient fuel the downward wrap loop exits with `lon ≤ 180`. -/
theorem wrap_down_steps_le (fuel : ℕ) : ∀ lon : ℚ,
    (⌈lon⌉ - 180).toNat ≤ fuel → wrap_down_steps fuel lon ≤ 180 := by
  induction fuel with
  | zero =>
    intro lon h
    have hc : ⌈lon⌉ ≤ 180 := by omega
    have := Int.le_ceil lon
    calc wrap_down_steps 0 lon = lon := rfl
      _ ≤ (⌈lon⌉ : ℚ) := this
      _ ≤ ((180 : ℤ) : ℚ) := by exact_mod_cast hc
      _ = 180 := by norm_num
  | succ n ih =>
    intro lon h
    by_cases hl : lon > 180
    · have hstep : wrap_down_steps (n + 1) lon = wrap_down_steps n (ratSub lon 360) := by
        simp [wrap_down_steps, hl]
      rw [hstep]
      apply ih
      have hsub : ratSub lon 360 = lon - ((360 : ℤ) : ℚ) := by
        rw [ratSub_eq]; norm_num
      have hceil : ⌈ratSub lon 360⌉ = ⌈lon⌉ - 360 := by
        rw [hsub, Int.ceil_sub_int]
      have hlon : (180 : ℤ) < ⌈lon⌉ := by
        rw [Int.lt_ceil]; exact_mod_cast hl
      omega
    · simp [wrap_down_steps, hl]
      linarith [not_lt.1 hl]

/-- With sufficient fuel the upward wrap loop exits with `-180 ≤ lon`. -/
theorem wrap_up_steps_ge (fuel : ℕ) : ∀ lon : ℚ,
    (-180 - ⌊lon⌋).toNat ≤ fuel → -180 ≤ wrap_up_steps fuel lon := by
  induction fuel with
  | zero =>
    intro lon h
    have hf : (-180 : ℤ) ≤ ⌊lon⌋ := by omega
    have := Int.floor_le lon
    calc (-180 : ℚ) = ((-180 : ℤ) : ℚ) := by norm_num
      _ ≤ (⌊lon⌋ : ℚ) := by exact_mod_cast hf
      _ ≤ lon := this
  | succ n ih =>
    intro lon h
    by_cases hl : lon < -180
    · have hstep : wrap_up_steps (n + 1) lon = wrap_up_steps n (ratAdd lon 360) := by
        simp [wrap_up_steps, hl]
      rw [hstep]
      apply ih
      have hadd : ratAdd lon 360 = lon + ((360 : ℤ) : ℚ) := by
        rw [ratAdd_eq]; norm_num
      have hfloor : ⌊ratAdd lon 360⌋ = ⌊lon⌋ + 360 := by
        rw [hadd, Int.floor_add_int]
      have hlon : ⌊lon⌋ < (-180 : ℤ) := by
        rw [Int.floor_lt]; exact_mod_cast hl
      omega
    · simp [wrap_up_steps, hl]
      linarith [not_lt.1 hl]

/-- The upward wrap loop never pushes a value that starts `≤ 180` above
`180`. -/
theorem wrap_up_steps_preserves_le (fuel : ℕ) : ∀ lon : ℚ,
    lon ≤ 180 → wrap_up_steps fuel lon ≤ 180 := by
  induction fuel with
  | zero => intro lon h; exact h
  | succ n ih =>
    intro lon h
    by_cases hl : lon < -180
    · have hstep : wrap_up_steps (n + 1) lon = wrap_up_steps n (ratAdd lon 360) := by
        simp [wrap_up_steps, hl]
      rw [hstep]
      apply ih
      rw [ratAdd_eq]
      linarith
    · simpa [wrap_up_steps, hl] using h

/-- Each downward pass keeps the value congruent modulo 360. -/
theorem wrap_down_steps_shift (fuel : ℕ) : ∀ lon : ℚ,
    ∃ k : ℤ, wrap_down_steps fuel lon = lon + 360 * k := by
  induction fuel with
  | zero => intro lon; exact ⟨0, by simp [wrap_down_steps]⟩
  | succ n ih =>
    intro lon
    by_cases hl : lon > 180
    · obtain ⟨k, hk⟩ := ih (ratSub lon 360)
      refine ⟨k - 1, ?_⟩
      simp only [wrap_down_steps, hl, if_pos]
      rw [hk, ratSub_eq]
      push_cast
      ring
    · exact ⟨0, by simp [wrap_down_steps, hl]⟩

/-- Each upward pass keeps the value congruent modulo 360. -/
theorem wrap_up_steps_shift (fuel : ℕ) : ∀ lon : ℚ,
    ∃ k : ℤ, wrap_up_steps fuel lon = lon + 360 * k := by
  induction fuel with
  | zero => intro lon; exact ⟨0, by simp [wrap_up_steps]⟩
  | succ n ih =>
    intro lon
    by_cases hl : lon < -180
    · obtain ⟨k, hk⟩ := ih (ratAdd lon 360)
      refine ⟨k + 1, ?_⟩
      simp only [wrap_up_steps, hl, if_pos]
      rw [hk, ratAdd_eq]
      push_cast
      ring
    · exact ⟨0, by simp [wrap_up_steps, hl]⟩

/-- `wrap_lon` lands in `[-180, 180]` and differs from the input by an
integer multiple of 360. -/
theorem wrap_lon_spec (lon : ℚ) :
    -180 ≤ wrap_lon lon ∧ wrap_lon lon ≤ 180 ∧ ∃ k : ℤ, wrap_lon lon = lon + 360 * k := by
  unfold wrap_lon
  have hdown : wrap_down_steps (wrap_down_fuel lon) lon ≤ 180 :=
    wrap_down_steps_le _ lon le_rfl
  refine ⟨wrap_up_steps_ge _ _ le_rfl, wrap_up_steps_preserves_le _ _ hdown, ?_⟩
  obtain ⟨k₁, hk₁⟩ := wrap_down_steps_shift (wrap_down_fuel lon) lon
  obtain ⟨k₂, hk₂⟩ := wrap_up_steps_shift (wrap_up_fuel (wrap_down_steps (wrap_down_fuel lon) lon))
    (wrap_down_steps (wrap_down_fuel lon) lon)
  exact ⟨k₁ + k₂, by rw [hk₂, hk₁]; push_cast; ring⟩

/-! ### Nearest-port loop characterization -/

/-- `port_distance_sq` is nonnegative. -/
theorem port_distance_sq_nonneg (coord : Coordinate) (p : PortData) :
    0 ≤ port_distance_sq coord p := by
  unfold port_distance_sq
  rw [ratAdd_eq, ratMul_eq, ratMul_eq, ratSub_eq, ratSub_eq]
  exact add_nonneg (mul_self_nonneg _) (mul_self_nonneg _)

/-- Running the loop with a `some` accumulator always yields a `some` result;
the result is either the accumulator (when nothing beats its distance) or a
strictly better candidate, first-seen among equals. -/
theorem find_nearest_port_loop_some_spec (coord : Coordinate) (excl : Option String)
    (l : List PortData) : ∀ (mv : ℚ) (qv : PortData),
    ∃ r, find_nearest_port_loop coord excl l (some mv) (some qv) = some r ∧
      ((r = qv ∧ ∀ p ∈ l, port_excluded excl p = false → mv ≤ port_distance_sq coord p) ∨
       (∃ l1 l2, l = l1 ++ r :: l2 ∧ port_excluded excl r = false ∧
          port_distance_sq coord r < mv ∧
          (∀ p ∈ l1, port_excluded excl p = false →
            port_distance_sq coord r < port_distance_sq coord p) ∧
          (∀ p ∈ l2, port_excluded excl p = false →
            port_distance_sq coord r ≤ port_distance_sq coord p))) := by
  induction l with
  | nil =>
    intro mv qv
    exact ⟨qv, rfl, Or.inl ⟨rfl, by simp⟩⟩
  | cons h t ih =>
    intro mv qv
    cases hexc : port_excluded excl h with
    | true =>
      obtain ⟨r, hr, hcase⟩ := ih mv qv
      refine ⟨r, by simp [find_nearest_port_loop, hexc, hr], ?_⟩
      rcases hcase with ⟨rfl, hmin⟩ | ⟨l1, l2, hsplit, hrex, hlt, hpre, hpost⟩
      · refine Or.inl ⟨rfl, ?_⟩
        intro p hp hpex
        rcases List.mem_cons.1 hp with rfl | hp'
        · rw [hexc] at hpex; cases hpex
        · exact hmin p hp' hpex
      · refine Or.inr ⟨h :: l1, l2, by simp [hsplit], hrex, hlt, ?_, hpost⟩
        intro p hp hpex
        rcases List.mem_cons.1 hp with rfl | hp'
        · rw [hexc] at hpex; cases hpex
        · exact hpre p hp' hpex
    | false =>
      by_cases hlt : port_distance_sq coord h < mv
      · have hloop : find_nearest_port_loop coord excl (h :: t) (some mv) (some qv) =
            find_nearest_port_loop coord excl t (some (port_distance_sq coord h)) (some h) := by
          simp [find_nearest_port_loop, hexc, lt_min_distance, hlt]
        obtain ⟨r, hr, hcase⟩ := ih (port_distance_sq coord h) h
        refine ⟨r, by rw [hloop, hr], Or.inr ?_⟩
        rcases hcase with ⟨rfl, hmin⟩ | ⟨l1, l2, hsplit, hrex, hlt2, hpre, hpost⟩
        · exact ⟨[], t, rfl, hexc, hlt, by simp, hmin⟩
        · refine ⟨h :: l1, l2, by simp [hsplit], hrex, lt_trans hlt2 hlt, ?_, hpost⟩
          intro p hp hpex
          rcases List.mem_cons.1 hp with rfl | hp'
          · exact hlt2
          · exact hpre p hp' hpex
      · have hloop : find_nearest_port_loop coord excl (h :: t) (some mv) (some qv) =
            find_nearest_port_loop coord excl t (some mv) (some qv) := by
          simp [find_nearest_port_loop, hexc, lt_min_distance, hlt]
        obtain ⟨r, hr, hcase⟩ := ih mv qv
        refine ⟨r, by rw [hloop, hr], ?_⟩
        rcases hcase with ⟨rfl, hmin⟩ | ⟨l1, l2, hsplit, hrex, hlt2, hpre, hpost⟩
        · refine Or.inl ⟨rfl, ?_⟩
          intro p hp hpex
          rcases List.mem_cons.1 hp with rfl | hp'
          · exact not_lt.1 hlt
          · exact hmin p hp' hpex
        · refine Or.inr ⟨h :: l1, l2, by simp [hsplit], hrex, hlt2, ?_, hpost⟩
          intro p hp hpex
          rcases List.mem_cons.1 hp with rfl | hp'
          · exact lt_of_lt_of_le hlt2 (not_lt.1 hlt)
          · exact hpre p hp' hpex

/-- Characterization of the loop started from the initial state
(`float('inf')`, `None`): `none` exactly when every candidate is excluded,
and otherwise the first-seen strict minimizer of the squared distance. -/
theorem find_nearest_port_loop_spec (coord : Coordinate) (excl : Option String)
    (l : List PortData) :
    (find_nearest_port_loop coord excl l none none = none ↔
      ∀ p ∈ l, port_excluded excl p = true) ∧
    (∀ r, find_nearest_port_loop coord excl l none none = some r →
      ∃ l1 l2, l = l1 ++ r :: l2 ∧ port_excluded excl r = false ∧
        (∀ p ∈ l1, port_excluded excl p = false →
          port_distance_sq coord r < port_distance_sq coord p) ∧
        (∀ p ∈ l2, port_excluded excl p = false →
          port_distance_sq coord r ≤ port_distance_sq coord p)) := by
  induction l with
  | nil =>
    constructor
    · simp [find_nearest_port_loop]
    · intro r hr; cases hr
  | cons h t ih =>
    cases hexc : port_excluded excl h with
    | true =>
      have hloop : find_nearest_port_loop coord excl (h :: t) none none =
          find_nearest_port_loop coord excl t none none := by
        simp [find_nearest_port_loop, hexc]
      constructor
      · rw [hloop, ih.1]
        constructor
        · intro hall p hp
          rcases List.mem_cons.1 hp with rfl | hp'
          · exact hexc
          · exact hall p hp'
        · intro hall p hp
          exact hall p (List.mem_cons_of_mem h hp)
      · intro r hr
        rw [hloop] at hr
        obtain ⟨l1, l2, hsplit, hrex, hpre, hpost⟩ := ih.2 r hr
        refine ⟨h :: l1, l2, by simp [hsplit], hrex, ?_, hpost⟩
        intro p hp hpex
        rcases List.mem_cons.1 hp with rfl | hp'
        · rw [hexc] at hpex; cases hpex
        · exact hpre p hp' hpex
    | false =>
      have hloop : find_nearest_port_loop coord excl (h :: t) none none =
          find_nearest_port_loop coord excl t (some (port_distance_sq coord h)) (some h) := by
        simp [find_nearest_port_loop, hexc, lt_min_distance]
      obtain ⟨r, hr, hcase⟩ :=
        find_nearest_port_loop_some_spec coord excl t (port_distance_sq coord h) h
      constructor
      · rw [hloop, hr]
        constructor
        · intro hcontra; cases hcontra
        · intro hall
          have := hall h (List.mem_cons_self h t)
          rw [hexc] at this; cases this
      · intro r' hr'
        rw [hloop, hr] at hr'
        obtain rfl : r = r' := by injection hr'
        rcases hcase with ⟨rfl, hmin⟩ | ⟨l1, l2, hsplit, hrex, hlt2, hpre, hpost⟩
        · exact ⟨[], t, rfl, hexc, by simp, hmin⟩
        · refine ⟨h :: l1, l2, by simp [hsplit], hrex, ?_, hpost⟩
          intro p hp hpex
          rcases List.mem_cons.1 hp with rfl | hp'
          · exact hlt2
          · exact hpre p hp' hpex

/-! ### Normalizer and provider theorems -/

/-- `normalize_longitude_crossing` preserves length. -/
theorem normalize_longitude_crossing_length (coordinates : List (ℚ × ℚ)) :
    (normalize_longitude_crossing coordinates).length = coordinates.length := by
  unfold normalize_longitude_crossing
  split
  · rfl
  · exact List.length_map _ _

/-- Claim C4, amended: `normalize_longitude_crossing` preserves length and
latitudes; every produced longitude is the input longitude shifted by an
integer multiple of 360, and lands in `[-180, 180]` — but only for inputs of
at least two points.  Inputs of fewer than two points are returned unchanged
(their longitudes are not wrapped). -/
theorem C4_normalize_longitude_wraps (coordinates : List (ℚ × ℚ)) :
    (normalize_longitude_crossing coordinates).length = coordinates.length ∧
    (coordinates.length < 2 → normalize_longitude_crossing coordinates = coordinates) ∧
    (2 ≤ coordinates.length → List.Forall₂ (fun inp out =>
        out.2 = inp.2 ∧ -180 ≤ out.1 ∧ out.1 ≤ 180 ∧ ∃ k : ℤ, out.1 = inp.1 + 360 * (k : ℚ))
      coordinates (normalize_longitude_crossing coordinates)) := by
  refine ⟨normalize_longitude_crossing_length coordinates, ?_, ?_⟩
  · intro hshort
    unfold normalize_longitude_crossing
    rw [if_pos hshort]
  · intro hlong
    unfold normalize_longitude_crossing
    rw [if_neg (by omega)]
    rw [List.forall₂_map_right_iff]
    rw [List.forall₂_same]
    intro x _
    obtain ⟨h₁, h₂, k, hk⟩ := wrap_lon_spec x.1
    exact ⟨rfl, h₁, h₂, k, hk⟩

/-- Claim C4, counterexample to the claim as stated: the single-point input
`[(500, 0)]` is returned unchanged, so the produced longitude `500` does not
lie in `[-180, 180]`. -/
theorem C4_counterexample :
    normalize_longitude_crossing [((500 : ℚ), (0 : ℚ))] = [(500, 0)] ∧
    ¬(∀ pair ∈ normalize_longitude_crossing [((500 : ℚ), (0 : ℚ))], pair.1 ≤ 180) := by
  constructor
  · rfl
  · intro hall
    have := hall (500, 0) (by simp [normalize_longitude_crossing])
    norm_num at this

/-- Witness for C4: on `[(500, 0), (10, 2)]` the wrap applies pointwise. -/
theorem C4_witness :
    2 ≤ ([((500 : ℚ), (0 : ℚ)), ((10 : ℚ), (2 : ℚ))] : List (ℚ × ℚ)).length ∧
    List.Forall₂ (fun inp out =>
        out.2 = inp.2 ∧ -180 ≤ out.1 ∧ out.1 ≤ 180 ∧ ∃ k : ℤ, out.1 = inp.1 + 360 * (k : ℚ))
      [((500 : ℚ), (0 : ℚ)), ((10 : ℚ), (2 : ℚ))]
      (normalize_longitude_crossing [((500 : ℚ), (0 : ℚ)), ((10 : ℚ), (2 : ℚ))]) :=
  ⟨by decide, (C4_normalize_longitude_wraps _).2.2 (by decide)⟩

/-- With no exclusion the nonempty registry always yields a nearest port —
the justification for modelling the source's unguarded
`origin_port_data.get('country')` in `_create_land_sea_land_route`. -/
theorem find_nearest_port_no_exclude_isSome (coord : Coordinate) :
    (find_nearest_port coord none).isSome := by
  cases hf : find_nearest_port coord none with
  | some _ => rfl
  | none =>
    have hall := (find_nearest_port_loop_spec coord none (MAJOR_PORTS.map Prod.snd)).1.1 hf
    have hmem : (⟨"Shanghai", mkRat 1218 10, mkRat 312 10, "China"⟩ : PortData) ∈
        MAJOR_PORTS.map Prod.snd := by decide
    have := hall _ hmem
    simp [port_excluded, pyTruthy] at this

/-- Claim C5: `find_nearest_port` returns `none` iff every registry entry is
excluded; otherwise it returns a non-excluded entry whose planar distance
(the square root of `port_distance_sq`) is minimal among non-excluded
entries, with ties broken by registry order (everything strictly earlier in
the registry is strictly farther); and it is deterministic. -/
theorem C5_find_nearest_port_spec (coord : Coordinate) (exclude_country : Option String) :
    (find_nearest_port coord exclude_country = none ↔
      ∀ p ∈ MAJOR_PORTS.map Prod.snd, port_excluded exclude_country p = true) ∧
    (∀ p, find_nearest_port coord exclude_country = some p →
      p ∈ MAJOR_PORTS.map Prod.snd ∧ port_excluded exclude_country p = false ∧
      (∀ q ∈ MAJOR_PORTS.map Prod.snd, port_excluded exclude_country q = false →
        Real.sqrt ((port_distance_sq coord p : ℚ) : ℝ) ≤
          Real.sqrt ((port_distance_sq coord q : ℚ) : ℝ)) ∧
      (∃ l1 l2, MAJOR_PORTS.map Prod.snd = l1 ++ p :: l2 ∧
        ∀ q ∈ l1, port_excluded exclude_country q = false →
          Real.sqrt ((port_distance_sq coord p : ℚ) : ℝ) <
            Real.sqrt ((port_distance_sq coord q : ℚ) : ℝ))) ∧
    (∀ r₁ r₂ : Option PortData, find_nearest_port coord exclude_country = r₁ →
      find_nearest_port coord exclude_country = r₂ → r₁ = r₂) := by
  have base := find_nearest_port_loop_spec coord exclude_country (MAJOR_PORTS.map Prod.snd)
  unfold find_nearest_port
  refine ⟨base.1, ?_, fun r₁ r₂ h₁ h₂ => h₁.symm.trans h₂⟩
  intro p hp
  obtain ⟨l1, l2, hsplit, hex, hpre, hpost⟩ := base.2 p hp
  have hmem : p ∈ MAJOR_PORTS.map Prod.snd := by
    rw [hsplit]; exact List.mem_append_right _ (List.mem_cons_self _ _)
  refine ⟨hmem, hex, ?_, l1, l2, hsplit, ?_⟩
  · intro q hq hqex
    rw [hsplit] at hq
    rcases List.mem_append.1 hq with hq1 | hq2
    · exact le_of_lt ((rat_sqrt_lt_sqrt_iff _ _ (port_distance_sq_nonneg coord p)).2
        (hpre q hq1 hqex))
    · rcases List.mem_cons.1 hq2 with rfl | hq3
      · exact le_refl _
      · exact Real.sqrt_le_sqrt (by exact_mod_cast hpost q hq3 hqex)
  · intro q hq hqex
    exact (rat_sqrt_lt_sqrt_iff _ _ (port_distance_sq_nonneg coord p)).2 (hpre q hq hqex)

set_option maxRecDepth 100000 in
/-- Witness for C5 at Bogotá's coordinates: the nearest registry port is
Buenaventura, and the theorem's consequences hold for it. -/
theorem C5_witness :
    find_nearest_port ⟨mkRat (-741) 10, mkRat 47 10⟩ none =
      some ⟨"Buenaventura", -77, mkRat 39 10, "Colombia"⟩ ∧
    (⟨"Buenaventura", -77, mkRat 39 10, "Colombia"⟩ : PortData) ∈ MAJOR_PORTS.map Prod.snd ∧
    port_excluded none ⟨"Buenaventura", -77, mkRat 39 10, "Colombia"⟩ = false := by
  have h : find_nearest_port ⟨mkRat (-741) 10, mkRat 47 10⟩ none =
      some ⟨"Buenaventura", -77, mkRat 39 10, "Colombia"⟩ := by decide
  have hc := (C5_find_nearest_port_spec ⟨mkRat (-741) 10, mkRat 47 10⟩ none).2.1 _ h
  exact ⟨h, hc.1, hc.2.1⟩

/-- `get_maritime_route` never returns the empty list. -/
theorem get_maritime_route_ne_nil (from_lon from_lat to_lon to_lat : ℚ) (res : ℤ)
    (outcome : SeaRouteOutcome) :
    get_maritime_route from_lon from_lat to_lon to_lat res outcome ≠ [] := by
  unfold get_maritime_route
  cases hc : providerCoords outcome with
  | none => simp
  | some coordinates =>
    by_cases he : coordinates.isEmpty
    · simp [he]
    · simp only [he, Bool.not_false, if_true]
      intro hnil
      have hlen := normalize_longitude_crossing_length coordinates
      rw [hnil] at hlen
      have hz : coordinates = [] := List.length_eq_zero.1 hlen.symm
      rw [hz] at he
      simp at he

/-- On every provider failure path `get_maritime_route` is the straight
line. -/
theorem get_maritime_route_fallback_eq (from_lon from_lat to_lon to_lat : ℚ) (res : ℤ)
    (outcome : SeaRouteOutcome) (hfail : (providerCoords outcome).getD [] = []) :
    get_maritime_route from_lon from_lat to_lon to_lat res outcome =
      [(from_lon, from_lat), (to_lon, to_lat)] := by
  unfold get_maritime_route
  cases hc : providerCoords outcome with
  | none => rfl
  | some coordinates =>
    rw [hc] at hfail
    simp at hfail
    simp [hfail]

/-- Claim C7: for every provider behaviour `get_maritime_route` returns a
nonempty list, and on every failure path (no extractable coordinates, or an
empty extracted list) it returns exactly the straight line
`[[from_lon, from_lat], [to_lon, to_lat]]`. -/
theorem C7_get_maritime_route_fallback (from_lon from_lat to_lon to_lat : ℚ) (res : ℤ)
    (outcome : SeaRouteOutcome) :
    get_maritime_route from_lon from_lat to_lon to_lat res outcome ≠ [] ∧
    ((providerCoords outcome).getD [] = [] →
      get_maritime_route from_lon from_lat to_lon to_lat res outcome =
        [(from_lon, from_lat), (to_lon, to_lat)]) :=
  ⟨get_maritime_route_ne_nil from_lon from_lat to_lon to_lat res outcome,
    get_maritime_route_fallback_eq from_lon from_lat to_lon to_lat res outcome⟩

/-- Witness for C7: with the jar absent the straight-line fallback is
returned. -/
theorem C7_witness :
    (providerCoords SeaRouteOutcome.jarMissing).getD [] = [] ∧
    get_maritime_route 0 0 1 1 5 SeaRouteOutcome.jarMissing = [(0, 0), (1, 1)] ∧
    get_maritime_route 0 0 1 1 5 SeaRouteOutcome.jarMissing ≠ [] :=
  ⟨by decide, (C7_get_maritime_route_fallback 0 0 1 1 5 SeaRouteOutcome.jarMissing).2 (by decide),
    (C7_get_maritime_route_fallback 0 0 1 1 5 SeaRouteOutcome.jarMissing).1⟩

/-! ### Mode-selection cascade theorems -/

/-- Claim C2: `_determine_optimal_mode` computes exactly the specification's
fixed-precedence cascade (a)-(g), first match winning. -/
theorem C2_mode_cascade_matches_spec (is_domestic : Bool) (distance_km : ℚ)
    (requires_water_crossing origin_is_port destination_is_port : Bool)
    (origin_country destination_country : Option String) :
    _determine_optimal_mode is_domestic distance_km requires_water_crossing
      origin_is_port destination_is_port origin_country destination_country =
    determine_optimal_mode_spec_cascade is_domestic distance_km requires_water_crossing
      origin_is_port destination_is_port origin_country destination_country := by
  unfold _determine_optimal_mode determine_optimal_mode_spec_cascade
  split_ifs <;> first
    | rfl
    | (exfalso; linarith)
    | (exfalso
       simp only [not_and_or, not_le, not_lt] at *
       rcases ‹distance_km < 800 ∨ 2500 < distance_km› with h | h <;> linarith)

/-- Claim C10: the trailing default branch of `_determine_optimal_mode` is
unreachable — the function equals the cascade whose medium-distance rule is
the unconditional final branch, because every distance not exceeding any
earlier guard satisfies `distance_km ≤ 2500`. -/
theorem C10_default_branch_unreachable (is_domestic : Bool) (distance_km : ℚ)
    (requires_water_crossing origin_is_port destination_is_port : Bool)
    (origin_country destination_country : Option String) :
    _determine_optimal_mode is_domestic distance_km requires_water_crossing
      origin_is_port destination_is_port origin_country destination_country =
    determine_optimal_mode_no_default is_domestic distance_km requires_water_crossing
      origin_is_port destination_is_port origin_country destination_country := by
  unfold _determine_optimal_mode determine_optimal_mode_no_default
  split_ifs <;> first | rfl | (exfalso; linarith)

/-! ### Water-crossing theorems -/

/-- Claim C3, amended: when both extracted countries are truthy the result
is exactly the table membership (in either order) — the geometric tests are
not consulted; only when at least one country is missing or empty do the
`|Δlon| > 60` and Caribbean/Gulf box tests decide. -/
theorem C3_water_crossing_amended (origin destination : Coordinate)
    (origin_country destination_country : Option String) :
    (pyTruthy origin_country = true → pyTruthy destination_country = true →
      (_requires_water_crossing origin destination origin_country destination_country = true ↔
        ((pyLower (origin_country.getD ""), pyLower (destination_country.getD "")) ∈
            water_crossings ∨
         (pyLower (destination_country.getD ""), pyLower (origin_country.getD "")) ∈
            water_crossings))) ∧
    ((pyTruthy origin_country = false ∨ pyTruthy destination_country = false) →
      (_requires_water_crossing origin destination origin_country destination_country = true ↔
        (|origin.lon - destination.lon| > 60 ∨
         (origin.lat > 20 ∧ origin.lat < 30 ∧ origin.lon > -90 ∧ origin.lon < -75 ∧
          destination.lat > 20 ∧ destination.lat < 30 ∧ destination.lon > -85 ∧
          destination.lon < -70)))) := by
  constructor
  · intro hoc hdc
    unfold _requires_water_crossing
    rw [hoc, hdc]
    simp only [Bool.and_self, if_true, Bool.or_eq_true]
    constructor
    · rintro (h | h)
      · exact Or.inl (by simpa using h)
      · exact Or.inr (by simpa using h)
    · rintro (h | h)
      · exact Or.inl (by simpa using h)
      · exact Or.inr (by simpa using h)
  · intro hfail
    unfold _requires_water_crossing
    have hcond : (pyTruthy origin_country && pyTruthy destination_country) = false := by
      rcases hfail with h | h <;> simp [h]
    rw [hcond]
    simp only [Bool.false_eq_true, if_false]
    rw [pyAbs_eq, ratSub_eq]
    split_ifs with h1 h2
    · simp [h1]
    · simp [h2, h1]
    · simp [h1, h2]

/-- Claim C3, counterexample to the claim as stated: for Bogotá→Shanghai
coordinates with both countries resolved (`colombia`, `china`) the pair is
absent from the table, so the source returns `false` — although
`|Δlon| ≈ 195.6 > 60`, which the specification's cascade would classify as a
water crossing. -/
theorem C3_counterexample :
    _requires_water_crossing ⟨mkRat (-741) 10, mkRat 47 10⟩ ⟨mkRat 1215 10, mkRat 312 10⟩
      (some "colombia") (some "china") = false ∧
    requires_water_crossing_spec ⟨mkRat (-741) 10, mkRat 47 10⟩ ⟨mkRat 1215 10, mkRat 312 10⟩
      (some "colombia") (some "china") = true ∧
    _requires_water_crossing ⟨mkRat (-741) 10, mkRat 47 10⟩ ⟨mkRat 1215 10, mkRat 312 10⟩
      (some "colombia") (some "china") ≠
    requires_water_crossing_spec ⟨mkRat (-741) 10, mkRat 47 10⟩ ⟨mkRat 1215 10, mkRat 312 10⟩
      (some "colombia") (some "china") :=
  ⟨by decide, by decide, by decide⟩

/-- Witness for C3's amended theorem: the table branch fires for
(usa, cuba), and the geometric branch fires for an unresolved pair with a
large longitude difference. -/
theorem C3_witness :
    (pyTruthy (some "usa") = true ∧ pyTruthy (some "cuba") = true ∧
      (_requires_water_crossing ⟨-80, 25⟩ ⟨-82, 23⟩ (some "usa") (some "cuba") = true ↔
        ((pyLower ((some "usa").getD ""), pyLower ((some "cuba").getD "")) ∈ water_crossings ∨
         (pyLower ((some "cuba").getD ""), pyLower ((some "usa").getD "")) ∈ water_crossings))) ∧
    (pyTruthy (none : Option String) = false ∧
      (_requires_water_crossing ⟨-74, 4⟩ ⟨121, 31⟩ none none = true ↔
        (|(-74 : ℚ) - 121| > 60 ∨
         ((-74 : ℚ) > 20 ∧ (-74 : ℚ) < 30 ∧ (4 : ℚ) > -90 ∧ (4 : ℚ) < -75 ∧
          (121 : ℚ) > 20 ∧ (121 : ℚ) < 30 ∧ (31 : ℚ) > -85 ∧ (31 : ℚ) < -70)))) := by
  constructor
  · exact ⟨by decide, by decide,
      (C3_water_crossing_amended ⟨-80, 25⟩ ⟨-82, 23⟩ (some "usa") (some "cuba")).1
        (by decide) (by decide)⟩
  · exact ⟨by decide,
      (C3_water_crossing_amended ⟨-74, 4⟩ ⟨121, 31⟩ none none).2 (Or.inl (by decide))⟩

/-! ### Builder waypoint-discipline lemmas -/

/-- The SEA-branch obligation, shared by all builders: a segment whose
waypoints are the mapped provider output satisfies the discipline. -/
theorem sea_segment_ok (sqrtQ : ℚ → ℚ) (res : ℤ) (provider : SeaRouteOutcome)
    (a b : Coordinate) (desc : String) :
    segment_waypoints_ok provider
      ⟨SegmentType.SEA, a, b,
        (get_maritime_route a.lon a.lat b.lon b.lat res provider).map
          (fun coord => Coordinate.mk coord.1 coord.2),
        desc,
        _calculate_distance sqrtQ
          ((get_maritime_route a.lon a.lat b.lon b.lat res provider).map
            (fun coord => Coordinate.mk coord.1 coord.2))⟩ := by
  constructor
  · intro habs
    cases habs
  · intro _
    constructor
    · intro hc
      rw [List.map_eq_nil_iff] at hc
      exact get_maritime_route_ne_nil a.lon a.lat b.lon b.lat res provider hc
    · intro hfail
      show (get_maritime_route a.lon a.lat b.lon b.lat res provider).map
        (fun coord => Coordinate.mk coord.1 coord.2) = _
      rw [get_maritime_route_fallback_eq a.lon a.lat b.lon b.lat res provider hfail]
      rfl

/-- A LAND segment holding exactly its endpoints satisfies the
discipline. -/
theorem land_segment_ok (provider : SeaRouteOutcome) (a b : Coordinate)
    (desc : String) (dist : ℚ) :
    segment_waypoints_ok provider ⟨SegmentType.LAND, a, b, [a, b], desc, dist⟩ := by
  constructor
  · intro _
    rfl
  · intro habs
    cases habs

/-- Land segments of `_create_land_route` satisfy the waypoint discipline. -/
theorem create_land_route_segments_ok (sqrtQ : ℚ → ℚ) (provider : SeaRouteOutcome)
    (origin destination : Coordinate) (origin_name destination_name : String) :
    ∀ s ∈ _create_land_route sqrtQ origin destination origin_name destination_name,
      segment_waypoints_ok provider s := by
  intro s hs
  simp only [_create_land_route, List.mem_singleton] at hs
  subst hs
  exact land_segment_ok provider origin destination _ _

/-- Segments of `_create_sea_route` satisfy the waypoint discipline. -/
theorem create_sea_route_segments_ok (sqrtQ : ℚ → ℚ) (res : ℤ) (provider : SeaRouteOutcome)
    (origin destination : Coordinate) (origin_name destination_name : String) :
    ∀ s ∈ _create_sea_route sqrtQ res provider origin destination origin_name destination_name,
      segment_waypoints_ok provider s := by
  intro s hs
  simp only [_create_sea_route] at hs
  split at hs
  · simp at hs
  · simp only [List.mem_singleton] at hs
    subst hs
    exact sea_segment_ok sqrtQ res provider origin destination _

/-- Segments of `_create_land_sea_land_route` satisfy the waypoint
discipline. -/
theorem create_land_sea_land_segments_ok (sqrtQ : ℚ → ℚ) (res : ℤ)
    (provider : SeaRouteOutcome) (origin destination : Coordinate)
    (origin_name destination_name : String) :
    ∀ s ∈ _create_land_sea_land_route sqrtQ res provider origin destination
        origin_name destination_name,
      segment_waypoints_ok provider s := by
  intro s hs
  simp only [_create_land_sea_land_route] at hs
  cases hfo : find_nearest_port origin with
  | none =>
    rw [hfo] at hs
    exact create_land_route_segments_ok sqrtQ provider origin destination
      origin_name destination_name s hs
  | some origin_port_data =>
    rw [hfo] at hs
    cases hfd : find_nearest_port destination ((some origin_port_data).map PortData.country) with
    | none =>
      rw [hfd] at hs
      exact create_land_route_segments_ok sqrtQ provider origin destination
        origin_name destination_name s hs
    | some destination_port_data =>
      rw [hfd] at hs
      simp only [List.mem_append, List.mem_cons, List.mem_singleton] at hs
      rcases hs with (rfl | hs) | rfl | habs
      · exact land_segment_ok provider origin ⟨origin_port_data.lon, origin_port_data.lat⟩ _ _
      · split at hs
        · simp at hs
        · simp only [List.mem_singleton] at hs
          subst hs
          exact sea_segment_ok sqrtQ res provider ⟨origin_port_data.lon, origin_port_data.lat⟩
            ⟨destination_port_data.lon, destination_port_data.lat⟩ _
      · exact land_segment_ok provider ⟨destination_port_data.lon, destination_port_data.lat⟩
          destination _ _
      · simp at habs

/-- Segments of `_create_sea_land_route` satisfy the waypoint discipline. -/
theorem create_sea_land_segments_ok (sqrtQ : ℚ → ℚ) (res : ℤ) (provider : SeaRouteOutcome)
    (origin destination : Coordinate) (origin_name destination_name : String) :
    ∀ s ∈ _create_sea_land_route sqrtQ res provider origin destination
        origin_name destination_name,
      segment_waypoints_ok provider s := by
  intro s hs
  simp only [_create_sea_land_route] at hs
  cases hfd : find_nearest_port destination with
  | none =>
    rw [hfd] at hs
    exact create_land_route_segments_ok sqrtQ provider origin destination
      origin_name destination_name s hs
  | some destination_port_data =>
    rw [hfd] at hs
    rw [List.mem_append] at hs
    rcases hs with hs | hs
    · split at hs
      · simp at hs
      · simp only [List.mem_singleton] at hs
        subst hs
        exact sea_segment_ok sqrtQ res provider origin
          ⟨destination_port_data.lon, destination_port_data.lat⟩ _
    · rw [List.mem_singleton] at hs
      subst hs
      exact land_segment_ok provider ⟨destination_port_data.lon, destination_port_data.lat⟩
        destination _ _

/-- Segments of `_create_land_sea_route` satisfy the waypoint discipline. -/
theorem create_land_sea_segments_ok (sqrtQ : ℚ → ℚ) (res : ℤ) (provider : SeaRouteOutcome)
    (origin destination : Coordinate) (origin_name destination_name : String) :
    ∀ s ∈ _create_land_sea_route sqrtQ res provider origin destination
        origin_name destination_name,
      segment_waypoints_ok provider s := by
  intro s hs
  simp only [_create_land_sea_route] at hs
  cases hfo : find_nearest_port origin with
  | none =>
    rw [hfo] at hs
    exact create_land_route_segments_ok sqrtQ provider origin destination
      origin_name destination_name s hs
  | some origin_port_data =>
    rw [hfo] at hs
    simp only [List.mem_cons] at hs
    rcases hs with rfl | hs
    · exact land_segment_ok provider origin ⟨origin_port_data.lon, origin_port_data.lat⟩ _ _
    · split at hs
      · simp at hs
      · simp only [List.mem_singleton] at hs
        subst hs
        exact sea_segment_ok sqrtQ res provider ⟨origin_port_data.lon, origin_port_data.lat⟩
          destination _

/-! ### Route assembly theorems -/

/-- Any route the assembler hands back is exactly the constructed record:
the built segments with the two folded totals and the branch description. -/
theorem assemble_route_eq (built : String × List RouteSegment) (r : EnhancedRoute)
    (h : (if built.2.isEmpty then none
          else some ⟨built.2,
            built.2.foldl (fun total segment => ratAdd total segment.distance_km) 0,
            built.2.foldl (fun total segment => total + segment.waypoints.length) 0,
            built.1⟩ : Option EnhancedRoute) = some r) :
    r = ⟨built.2,
      built.2.foldl (fun total segment => ratAdd total segment.distance_km) 0,
      built.2.foldl (fun total segment => total + segment.waypoints.length) 0,
      built.1⟩ := by
  split at h
  · cases h
  · exact (Option.some.inj h).symm

/-- Claim C1: every route returned by `calculate_enhanced_route` has
`total_distance_km` exactly the sum of its segments' `distance_km` fields
and `total_waypoints` exactly the sum of its segments' waypoint counts. -/
theorem C1_route_totals_are_sums (geo : String → Option Coordinate)
    (hav : Coordinate → Coordinate → ℚ) (sqrtQ : ℚ → ℚ) (res : ℤ)
    (provider : SeaRouteOutcome) (origin_name destination_name : String)
    (r : EnhancedRoute)
    (h : calculate_enhanced_route geo hav sqrtQ res provider origin_name destination_name =
      some r) :
    r.total_distance_km = (r.segments.map RouteSegment.distance_km).sum ∧
    r.total_waypoints = (r.segments.map fun s => s.waypoints.length).sum := by
  unfold calculate_enhanced_route at h
  cases hgo : geo origin_name with
  | none =>
    rw [hgo] at h
    exact Option.noConfusion h
  | some origin_coord =>
    cases hgd : geo destination_name with
    | none =>
      rw [hgo, hgd] at h
      exact Option.noConfusion h
    | some destination_coord =>
      rw [hgo, hgd] at h
      have hr := assemble_route_eq _ r h
      rw [hr]
      constructor
      · show List.foldl _ 0 _ = _
        rw [foldl_ratAdd_map_eq_sum, zero_add]
      · show List.foldl _ 0 _ = _
        rw [foldl_add_map_eq_sum, Nat.zero_add]

/-- Witness for C1 on a concrete sea-only route (Shanghai → Los Angeles with
a two-point provider path): the totals are the sums. -/
theorem C1_witness :
    calculate_enhanced_route
      (fun n => if n == "shanghai" then some ⟨mkRat 1218 10, mkRat 312 10⟩
        else if n == "los angeles" then some ⟨mkRat (-1182) 10, mkRat 341 10⟩ else none)
      (fun _ _ => 10000) (fun _ => 7) 5 (.lineCoords [(5, 5), (6, 6)])
      "shanghai" "los angeles" =
      some ⟨[⟨SegmentType.SEA, ⟨mkRat 1218 10, mkRat 312 10⟩, ⟨mkRat (-1182) 10, mkRat 341 10⟩,
        [⟨5, 5⟩, ⟨6, 6⟩], "Sea route: shanghai -> los angeles", 7⟩], 7, 2,
        "Sea route: shanghai -> los angeles"⟩ ∧
    (7 : ℚ) = ([⟨SegmentType.SEA, ⟨mkRat 1218 10, mkRat 312 10⟩, ⟨mkRat (-1182) 10, mkRat 341 10⟩,
        [⟨5, 5⟩, ⟨6, 6⟩], "Sea route: shanghai -> los angeles", (7 : ℚ)⟩].map
        RouteSegment.distance_km).sum := by
  have h : calculate_enhanced_route
      (fun n => if n == "shanghai" then some ⟨mkRat 1218 10, mkRat 312 10⟩
        else if n == "los angeles" then some ⟨mkRat (-1182) 10, mkRat 341 10⟩ else none)
      (fun _ _ => 10000) (fun _ => 7) 5 (.lineCoords [(5, 5), (6, 6)])
      "shanghai" "los angeles" =
      some ⟨[⟨SegmentType.SEA, ⟨mkRat 1218 10, mkRat 312 10⟩, ⟨mkRat (-1182) 10, mkRat 341 10⟩,
        [⟨5, 5⟩, ⟨6, 6⟩], "Sea route: shanghai -> los angeles", 7⟩], 7, 2,
        "Sea route: shanghai -> los angeles"⟩ := by decide
  exact ⟨h, (C1_route_totals_are_sums _ _ _ _ _ _ _ _ h).1⟩

/-- Claim C8: when geocoding fails for either name the whole computation
returns `none` — no partial route. -/
theorem C8_geocoding_failure_aborts (geo : String → Option Coordinate)
    (hav : Coordinate → Coordinate → ℚ) (sqrtQ : ℚ → ℚ) (res : ℤ)
    (provider : SeaRouteOutcome) (origin_name destination_name : String)
    (h : geo origin_name = none ∨ geo destination_name = none) :
    calculate_enhanced_route geo hav sqrtQ res provider origin_name destination_name = none := by
  unfold calculate_enhanced_route
  rcases h with h | h
  · rw [h]
  · cases geo origin_name <;> rw [h]

/-- Witness for C8: a geocoder that resolves nothing yields no route. -/
theorem C8_witness :
    ((fun _ : String => (none : Option Coordinate)) "a" = none ∨
      (fun _ : String => (none : Option Coordinate)) "b" = none) ∧
    calculate_enhanced_route (fun _ => none) (fun _ _ => 0) (fun _ => 0) 5
      SeaRouteOutcome.jarMissing "a" "b" = none :=
  ⟨Or.inl rfl,
    C8_geocoding_failure_aborts (fun _ => none) (fun _ _ => 0) (fun _ => 0) 5
      SeaRouteOutcome.jarMissing "a" "b" (Or.inl rfl)⟩

/-- Claim C6: when the analyzer recommends `land_only`, the returned route
consists of exactly one LAND segment whose waypoints are exactly
`[origin, destination]`. -/
theorem C6_land_only_single_land_segment (geo : String → Option Coordinate)
    (hav : Coordinate → Coordinate → ℚ) (sqrtQ : ℚ → ℚ) (res : ℤ)
    (provider : SeaRouteOutcome) (origin_name destination_name : String)
    (origin_coord destination_coord : Coordinate)
    (hgo : geo origin_name = some origin_coord)
    (hgd : geo destination_name = some destination_coord)
    (hmode : (_analyze_route_requirements hav origin_name destination_name origin_coord
      destination_coord).recommended_mode = "land_only") :
    ∃ r, calculate_enhanced_route geo hav sqrtQ res provider origin_name destination_name =
        some r ∧
      r.segments = [⟨SegmentType.LAND, origin_coord, destination_coord,
        [origin_coord, destination_coord],
        "Direct land route: " ++ origin_name ++ " -> " ++ destination_name,
        _calculate_distance sqrtQ [origin_coord, destination_coord]⟩] := by
  refine ⟨⟨_create_land_route sqrtQ origin_coord destination_coord origin_name destination_name,
    (_create_land_route sqrtQ origin_coord destination_coord origin_name
      destination_name).foldl (fun total segment => ratAdd total segment.distance_km) 0,
    (_create_land_route sqrtQ origin_coord destination_coord origin_name
      destination_name).foldl (fun total segment => total + segment.waypoints.length) 0,
    "Land-only route: " ++ origin_name ++ " -> " ++ destination_name⟩, ?_, rfl⟩
  unfold calculate_enhanced_route
  rw [hgo, hgd]
  dsimp only
  rw [hmode]
  simp [_create_land_route]

set_option maxRecDepth 40000 in
/-- Witness for C6 on a domestic pair (Bogotá → Medellín, both resolving to
Colombia, 400 km apart): the analyzer recommends `land_only` and the route
is one LAND segment with exactly the two endpoints. -/
theorem C6_witness :
    ((fun n : String => if n == "bogota, colombia" then some (⟨-74, 5⟩ : Coordinate)
        else if n == "medellin, colombia" then some ⟨-76, 6⟩ else none) "bogota, colombia" =
      some ⟨-74, 5⟩) ∧
    ((_analyze_route_requirements (fun _ _ => 400) "bogota, colombia" "medellin, colombia"
      ⟨-74, 5⟩ ⟨-76, 6⟩).recommended_mode = "land_only") ∧
    ∃ r, calculate_enhanced_route
        (fun n => if n == "bogota, colombia" then some ⟨-74, 5⟩
          else if n == "medellin, colombia" then some ⟨-76, 6⟩ else none)
        (fun _ _ => 400) (fun _ => 0) 5 SeaRouteOutcome.jarMissing
        "bogota, colombia" "medellin, colombia" = some r ∧
      r.segments = [⟨SegmentType.LAND, ⟨-74, 5⟩, ⟨-76, 6⟩, [⟨-74, 5⟩, ⟨-76, 6⟩],
        "Direct land route: " ++ "bogota, colombia" ++ " -> " ++ "medellin, colombia",
        _calculate_distance (fun _ => 0) [⟨-74, 5⟩, ⟨-76, 6⟩]⟩] :=
  ⟨by decide, by decide,
    C6_land_only_single_land_segment
      (fun n => if n == "bogota, colombia" then some ⟨-74, 5⟩
        else if n == "medellin, colombia" then some ⟨-76, 6⟩ else none)
      (fun _ _ => 400) (fun _ => 0) 5 SeaRouteOutcome.jarMissing
      "bogota, colombia" "medellin, colombia" ⟨-74, 5⟩ ⟨-76, 6⟩
      (by decide) (by decide) (by decide)⟩

/-- Claim C9, amended: every LAND segment of a returned route carries
exactly `[origin, destination]`; every SEA segment carries a nonempty
waypoint list, which equals `[origin, destination]` on every provider
failure path — but a successful provider path is stored as-is (after
normalization) and need not begin or end at the segment endpoints. -/
theorem C9_segment_waypoint_discipline (geo : String → Option Coordinate)
    (hav : Coordinate → Coordinate → ℚ) (sqrtQ : ℚ → ℚ) (res : ℤ)
    (provider : SeaRouteOutcome) (origin_name destination_name : String)
    (r : EnhancedRoute)
    (h : calculate_enhanced_route geo hav sqrtQ res provider origin_name destination_name =
      some r) :
    ∀ s ∈ r.segments, segment_waypoints_ok provider s := by
  unfold calculate_enhanced_route at h
  cases hgo : geo origin_name with
  | none =>
    rw [hgo] at h
    exact Option.noConfusion h
  | some origin_coord =>
    cases hgd : geo destination_name with
    | none =>
      rw [hgo, hgd] at h
      exact Option.noConfusion h
    | some destination_coord =>
      rw [hgo, hgd] at h
      have hr := assemble_route_eq _ r h
      rw [hr]
      intro s hs
      split_ifs at hs
      · exact create_land_route_segments_ok sqrtQ provider origin_coord destination_coord
          origin_name destination_name s hs
      · exact create_sea_route_segments_ok sqrtQ res provider origin_coord destination_coord
          origin_name destination_name s hs
      · exact create_sea_route_segments_ok sqrtQ res provider origin_coord destination_coord
          origin_name destination_name s hs
      · exact create_land_sea_land_segments_ok sqrtQ res provider origin_coord
          destination_coord origin_name destination_name s hs
      · exact create_sea_land_segments_ok sqrtQ res provider origin_coord destination_coord
          origin_name destination_name s hs
      · exact create_land_sea_segments_ok sqrtQ res provider origin_coord destination_coord
          origin_name destination_name s hs
      · simp at hs

/-- Claim C9, counterexample to the claim as stated: with a provider that
returns the single point `(5, 5)`, the sea-only route Shanghai → Los Angeles
carries a SEA segment whose waypoint list is `[(5, 5)]` — length 1, not at
least 2, and its first element is not the segment origin. -/
theorem C9_counterexample :
    (calculate_enhanced_route
      (fun n => if n == "shanghai" then some ⟨mkRat 1218 10, mkRat 312 10⟩
        else if n == "los angeles" then some ⟨mkRat (-1182) 10, mkRat 341 10⟩ else none)
      (fun _ _ => 10000) (fun _ => 0) 5 (.lineCoords [(5, 5)])
      "shanghai" "los angeles").map (fun r => r.segments.map fun s => (s.type, s.waypoints)) =
      some [(SegmentType.SEA, [⟨5, 5⟩])] ∧
    ¬2 ≤ ([(⟨5, 5⟩ : Coordinate)]).length ∧
    ([(⟨5, 5⟩ : Coordinate)]).head? ≠ some ⟨mkRat 1218 10, mkRat 312 10⟩ :=
  ⟨by decide, by decide, by decide⟩

/-- Witness for C9 on a concrete sea-only route with a two-point provider
path: the discipline holds for the produced segment. -/
theorem C9_witness :
    calculate_enhanced_route
      (fun n => if n == "shanghai" then some ⟨mkRat 1218 10, mkRat 312 10⟩
        else if n == "los angeles" then some ⟨mkRat (-1182) 10, mkRat 341 10⟩ else none)
      (fun _ _ => 10000) (fun _ => 0) 5 (.lineCoords [(5, 5), (6, 6)])
      "shanghai" "los angeles" =
      some ⟨[⟨SegmentType.SEA, ⟨mkRat 1218 10, mkRat 312 10⟩, ⟨mkRat (-1182) 10, mkRat 341 10⟩,
        [⟨5, 5⟩, ⟨6, 6⟩], "Sea route: shanghai -> los angeles", 0⟩], 0, 2,
        "Sea route: shanghai -> los angeles"⟩ ∧
    (∀ s ∈ (⟨[⟨SegmentType.SEA, ⟨mkRat 1218 10, mkRat 312 10⟩, ⟨mkRat (-1182) 10, mkRat 341 10⟩,
        [⟨5, 5⟩, ⟨6, 6⟩], "Sea route: shanghai -> los angeles", (0 : ℚ)⟩], (0 : ℚ), 2,
        "Sea route: shanghai -> los angeles"⟩ : EnhancedRoute).segments,
      segment_waypoints_ok (.lineCoords [(5, 5), (6, 6)]) s) := by
  have h : calculate_enhanced_route
      (fun n => if n == "shanghai" then some ⟨mkRat 1218 10, mkRat 312 10⟩
        else if n == "los angeles" then some ⟨mkRat (-1182) 10, mkRat 341 10⟩ else none)
      (fun _ _ => 10000) (fun _ => 0) 5 (.lineCoords [(5, 5), (6, 6)])
      "shanghai" "los angeles" =
      some ⟨[⟨SegmentType.SEA, ⟨mkRat 1218 10, mkRat 312 10⟩, ⟨mkRat (-1182) 10, mkRat 341 10⟩,
        [⟨5, 5⟩, ⟨6, 6⟩], "Sea route: shanghai -> los angeles", 0⟩], 0, 2,
        "Sea route: shanghai -> los angeles"⟩ := by decide
  exact ⟨h, C9_segment_waypoint_discipline _ _ _ _ _ _ _ _ h⟩
